import Mathlib

/-!
# Verification of the solstice-sky-viewer astronomy pipeline

A shallow embedding of the USNO-based astronomy adapter
(src/app/api/sky-objects/astronomy.ts), the sky-objects route handler
(src/app/api/sky-objects/route.ts) and the stella-chat route handler
(src/app/api/stella-chat/route.ts), together with proofs about them.

Modelling conventions:
* JavaScript strings are Lean strings; string algorithms are written on the
  underlying character lists.
* JavaScript numbers appearing in integer positions are Int, with none
  standing for NaN where a parse can fail; altitudes and coordinates are
  rationals (they are only ever compared against constants).
* The ambient clock (new Date()) is an explicit argument: an instant is a
  number of milliseconds since 0000-01-01T00:00:00.000 UTC, and the runtime
  is assumed to run with a UTC local timezone, as the deployed server does.
* Network calls are explicit oracle arguments describing the outcome of the
  corresponding fetch.
* A function whose JavaScript original can throw returns an Option, with
  none modelling the exception escaping it.
-/

namespace SkyViewer

/-! ## Decimal digits and fixed-width rendering -/

/-- The numeric value of a decimal digit character, if it is one. -/
def digit? (c : Char) : Option Nat :=
  if '0' ≤ c ∧ c ≤ '9' then some (c.toNat - '0'.toNat) else none

/-- Two-digit decimal rendering of n, for n < 100.  This is the value of
the JavaScript expression String(n).padStart(2, "0") in that range. -/
def pad2l (n : Nat) : List Char :=
  [Nat.digitChar (n / 10), Nat.digitChar (n % 10)]

/-- Four-digit decimal rendering of n, for n < 10000 (the year field of
Date.prototype.toISOString for the years this pipeline handles). -/
def pad4l (n : Nat) : List Char :=
  [Nat.digitChar (n / 1000), Nat.digitChar (n / 100 % 10),
   Nat.digitChar (n / 10 % 10), Nat.digitChar (n % 10)]

/-- Parse exactly two decimal digits. -/
def parse2 : List Char → Option Nat
  | [c1, c2] =>
    match digit? c1, digit? c2 with
    | some a, some b => some (a * 10 + b)
    | _, _ => none
  | _ => none

/-- Parse exactly four decimal digits. -/
def parse4 : List Char → Option Nat
  | [c1, c2, c3, c4] =>
    match digit? c1, digit? c2, digit? c3, digit? c4 with
    | some a, some b, some c, some d =>
        some (a * 1000 + b * 100 + c * 10 + d)
    | _, _, _, _ => none
  | _ => none

theorem digit?_digitChar : ∀ n < 10, digit? (Nat.digitChar n) = some n := by
  decide

theorem parse2_pad2 : ∀ n < 100, parse2 (pad2l n) = some n := by
  decide

theorem digitChar_ne_colon : ∀ n < 10, Nat.digitChar n ≠ ':' := by decide

theorem digitChar_ne_dash : ∀ n < 10, Nat.digitChar n ≠ '-' := by decide

theorem digitChar_ne_T : ∀ n < 10, Nat.digitChar n ≠ 'T' := by decide

theorem parse4_pad4 (n : Nat) (h : n < 10000) : parse4 (pad4l n) = some n := by
  have h3 : n / 1000 < 10 := by omega
  have h2 : n / 100 % 10 < 10 := Nat.mod_lt _ (by omega)
  have h1 : n / 10 % 10 < 10 := Nat.mod_lt _ (by omega)
  have h0 : n % 10 < 10 := Nat.mod_lt _ (by omega)
  simp only [pad4l, parse4, digit?_digitChar _ h3, digit?_digitChar _ h2,
    digit?_digitChar _ h1, digit?_digitChar _ h0]
  congr 1
  omega

/-! ## JavaScript string primitives -/

/-- Model of JavaScript String.prototype.split with a one-character
separator, on the underlying character list. -/
def splitOnChar (sep : Char) : List Char → List (List Char)
  | [] => [[]]
  | c :: cs =>
    if c = sep then [] :: splitOnChar sep cs
    else
      match splitOnChar sep cs with
      | h :: t => (c :: h) :: t
      | [] => [[c]]

theorem splitOnChar_ne_nil (sep : Char) (l : List Char) :
    splitOnChar sep l ≠ [] := by
  cases l with
  | nil => simp [splitOnChar]
  | cons c cs =>
    simp only [splitOnChar]
    split
    · simp
    · split <;> simp

theorem splitOnChar_of_not_mem (sep : Char) (l : List Char)
    (h : sep ∉ l) : splitOnChar sep l = [l] := by
  induction l with
  | nil => rfl
  | cons c cs ih =>
    simp only [List.mem_cons, not_or] at h
    simp only [splitOnChar, if_neg (Ne.symm h.1), ih h.2]

theorem splitOnChar_append (sep : Char) (a b : List Char) (h : sep ∉ a) :
    splitOnChar sep (a ++ sep :: b) = a :: splitOnChar sep b := by
  induction a with
  | nil => simp [splitOnChar]
  | cons c cs ih =>
    simp only [List.mem_cons, not_or] at h
    simp only [List.cons_append, splitOnChar, if_neg (Ne.symm h.1), List.append_eq, ih h.2]

/-- Model of JavaScript string comparison (code-unit-wise lexicographic),
as used by the moonset-rollover test moonSetEvent.time < moonRiseEvent.time. -/
def jsLtL : List Char → List Char → Bool
  | _, [] => false
  | [], _ :: _ => true
  | a :: l1, b :: l2 =>
    if a.toNat < b.toNat then true
    else if b.toNat < a.toNat then false
    else jsLtL l1 l2

/-- JavaScript string comparison on Lean strings. -/
def jsStrLt (a b : String) : Bool := jsLtL a.data b.data

/-- Whitespace test backing the trim and the \s+ replacement. -/
def isWs (c : Char) : Bool :=
  c = ' ' || c = '\t' || c = '\n' || c = '\r'

/-- Model of String.prototype.trim (ASCII whitespace suffices here). -/
def jsTrimL (l : List Char) : List Char :=
  ((l.dropWhile isWs).reverse.dropWhile isWs).reverse

def jsTrim (s : String) : String := String.mk (jsTrimL s.data)

/-- Model of String.prototype.toLowerCase on the ASCII names this
pipeline handles. -/
def jsToLower (s : String) : String := String.mk (s.data.map Char.toLower)

/-- Model of name.replace(/\s+/g, "-"): every maximal run of whitespace
becomes a single hyphen. -/
def collapseWs : List Char → List Char
  | [] => []
  | c :: cs =>
    if isWs c then '-' :: collapseWs (cs.dropWhile isWs)
    else c :: collapseWs cs
termination_by l => l.length
decreasing_by
  · simpa using Nat.lt_succ_of_le (List.dropWhile_sublist isWs (l := cs)).length_le
  · simp

/-- Model of JavaScript Number(s) on the strings produced here by
split(":"): a possibly empty all-digit string parses to its value (the
empty string to 0), anything else to NaN (none).  Signs, blanks and
decimal points never occur on this code path. -/
def jsNumber (l : List Char) : Option Int :=
  if l.all (fun c => (digit? c).isSome) then
    some ((l.foldl (fun acc c => acc * 10 + ((digit? c).getD 0)) 0 : Nat) : Int)
  else none

/-- Model of String(n) for an integer JavaScript number (none is NaN). -/
def jsNumStr : Option Int → List Char
  | some n => if n < 0 then '-' :: Nat.toDigits 10 n.natAbs else Nat.toDigits 10 n.toNat
  | none => ['N', 'a', 'N']

/-- Model of String.prototype.padStart(2, "0"). -/
def jsPadStart2 (l : List Char) : List Char :=
  List.replicate (2 - l.length) '0' ++ l

/-- String(v).padStart(2, "0") as used on the estimated rise/set hours. -/
def jsPad2 (v : Option Int) : List Char := jsPadStart2 (jsNumStr v)

theorem jsPad2_eq_pad2l : ∀ n : Nat, n < 100 → jsPad2 (some (n : Int)) = pad2l n := by
  decide

/-! ## The proleptic Gregorian calendar, as used by JavaScript UTC dates -/

/-- Gregorian leap-year test. -/
def isLeap (y : Nat) : Bool := (y % 4 = 0 && y % 100 != 0) || y % 400 = 0

/-- Days in month m of year y, for 1 ≤ m ≤ 12. -/
def daysInMonth (y m : Nat) : Nat :=
  if m = 2 then (if isLeap y then 29 else 28)
  else if m = 4 ∨ m = 6 ∨ m = 9 ∨ m = 11 then 30
  else 31

theorem daysInMonth_pos (y m : Nat) : 1 ≤ daysInMonth y m := by
  unfold daysInMonth
  split
  · split <;> omega
  · split <;> omega

theorem daysInMonth_le (y m : Nat) : daysInMonth y m ≤ 31 := by
  unfold daysInMonth
  split
  · split <;> omega
  · split <;> omega

/-- Days in the months of year y strictly before month m. -/
def daysBeforeMonth (y : Nat) : Nat → Nat
  | 0 => 0
  | 1 => 0
  | m + 1 => daysBeforeMonth y m + daysInMonth y m

/-- Number of leap years k with 0 ≤ k < y (year 0 is a leap year). -/
def leapsBefore : Nat → Nat
  | 0 => 0
  | y + 1 => y / 4 - y / 100 + y / 400 + 1

theorem isLeap_iff (y : Nat) :
    isLeap y = true ↔ ((y % 4 = 0 ∧ y % 100 ≠ 0) ∨ y % 400 = 0) := by
  simp [isLeap]

theorem leapsBefore_succ (y : Nat) :
    leapsBefore (y + 1) = leapsBefore y + (if isLeap y then 1 else 0) := by
  cases y with
  | zero => decide
  | succ n =>
    simp only [leapsBefore]
    split
    · rename_i h; rw [isLeap_iff] at h; omega
    · rename_i h; rw [isLeap_iff] at h; push_neg at h; omega

/-- Day index of the valid civil date (y, m, d): days since 0000-01-01. -/
def toDays (y m d : Nat) : Nat :=
  365 * y + leapsBefore y + daysBeforeMonth y m + (d - 1)

/-- A valid proleptic-Gregorian calendar date. -/
def validDate (y m d : Nat) : Prop :=
  1 ≤ m ∧ m ≤ 12 ∧ 1 ≤ d ∧ d ≤ daysInMonth y m

instance (y m d : Nat) : Decidable (validDate y m d) := by
  unfold validDate; infer_instance

/-- Advancing a JavaScript UTC date one calendar day
(date.setDate(date.getDate() + 1)). -/
def nextDay : Nat × Nat × Nat → Nat × Nat × Nat
  | (y, m, d) =>
    if d < daysInMonth y m then (y, m, d + 1)
    else if m < 12 then (y, m + 1, 1)
    else (y + 1, 1, 1)

/-- Moving a JavaScript UTC date back one calendar day
(date.setDate(date.getDate() - 1)). -/
def prevDay : Nat × Nat × Nat → Nat × Nat × Nat
  | (y, m, d) =>
    if 1 < d then (y, m, d - 1)
    else if 1 < m then (y, m - 1, daysInMonth y (m - 1))
    else (y - 1, 12, 31)

theorem daysBeforeMonth_twelve (y : Nat) :
    daysBeforeMonth y 12 = if isLeap y then 335 else 334 := by
  cases h : isLeap y <;>
    simp [daysBeforeMonth, daysInMonth, h]

theorem daysBeforeMonth_succ (y m : Nat) (h1 : 1 ≤ m) :
    daysBeforeMonth y (m + 1) = daysBeforeMonth y m + daysInMonth y m := by
  cases m with
  | zero => exact absurd h1 (by omega)
  | succ k => rfl

theorem toDays_nextDay (y m d : Nat) (h : validDate y m d) :
    (fun t => toDays t.1 t.2.1 t.2.2) (nextDay (y, m, d)) = toDays y m d + 1 := by
  obtain ⟨h1, h2, h3, h4⟩ := h
  simp only [nextDay]
  split
  · simp only [toDays]; omega
  · split
    · rename_i hdm hm
      have hd : d = daysInMonth y m := by omega
      have hstep := daysBeforeMonth_succ y m h1
      simp only [toDays, hstep]
      omega
    · rename_i hdm hm
      have hm12 : m = 12 := by omega
      subst hm12
      have h31 : daysInMonth y 12 = 31 := rfl
      have hd : d = 31 := by omega
      subst hd
      have h335 := daysBeforeMonth_twelve y
      have hls := leapsBefore_succ y
      have hone : daysBeforeMonth (y + 1) 1 = 0 := rfl
      simp only [toDays, hone, h335] at *
      cases hly : isLeap y <;> simp [hly] at h335 hls ⊢ <;> omega

theorem toDays_prevDay (y m d : Nat) (h : validDate y m d) (hy : 1 ≤ y) :
    (fun t => toDays t.1 t.2.1 t.2.2) (prevDay (y, m, d)) + 1 = toDays y m d := by
  obtain ⟨h1, h2, h3, h4⟩ := h
  simp only [prevDay]
  split
  · simp only [toDays]; omega
  · split
    · rename_i hd hm
      have hd1 : d = 1 := by omega
      have hstep : daysBeforeMonth y m = daysBeforeMonth y (m - 1) + daysInMonth y (m - 1) := by
        have := daysBeforeMonth_succ y (m - 1) (by omega)
        have hmm : m - 1 + 1 = m := by omega
        rw [hmm] at this
        exact this
      have := daysInMonth_pos y (m - 1)
      simp only [toDays, hstep]
      omega
    · rename_i hd hm
      have hm1 : m = 1 := by omega
      have hd1 : d = 1 := by omega
      subst hm1; subst hd1
      obtain ⟨y', rfl⟩ : ∃ y', y = y' + 1 := ⟨y - 1, by omega⟩
      have h335 := daysBeforeMonth_twelve y'
      have hls := leapsBefore_succ y'
      have h31 : daysInMonth y' 12 = 31 := rfl
      have hone : daysBeforeMonth (y' + 1) 1 = 0 := rfl
      simp only [toDays, hone, h335, h31, Nat.add_sub_cancel]
      cases hly : isLeap y' <;> simp [hly] at h335 hls ⊢ <;> omega

theorem validDate_nextDay (y m d : Nat) (h : validDate y m d) :
    (fun t => validDate t.1 t.2.1 t.2.2) (nextDay (y, m, d)) := by
  obtain ⟨h1, h2, h3, h4⟩ := h
  simp only [nextDay]
  split
  · show validDate y m (d + 1)
    exact ⟨h1, h2, by omega, by omega⟩
  · split
    · show validDate y (m + 1) 1
      exact ⟨by omega, by omega, le_refl 1, daysInMonth_pos _ _⟩
    · show validDate (y + 1) 1 1
      exact ⟨by omega, by omega, le_refl 1, daysInMonth_pos _ _⟩

theorem validDate_prevDay (y m d : Nat) (h : validDate y m d) :
    (fun t => validDate t.1 t.2.1 t.2.2) (prevDay (y, m, d)) := by
  obtain ⟨h1, h2, h3, h4⟩ := h
  simp only [prevDay]
  split
  · show validDate y m (d - 1)
    exact ⟨h1, h2, by omega, by omega⟩
  · split
    · show validDate y (m - 1) (daysInMonth y (m - 1))
      exact ⟨by omega, by omega, daysInMonth_pos _ _, le_refl _⟩
    · show validDate (y - 1) 12 31
      exact ⟨by omega, by omega, by omega, by rw [show daysInMonth (y - 1) 12 = 31 from rfl]⟩

theorem nextDay_year_le (y m d : Nat) : (nextDay (y, m, d)).1 ≤ y + 1 := by
  simp only [nextDay]
  split
  · omega
  · split <;> simp

theorem prevDay_year_le (y m d : Nat) : (prevDay (y, m, d)).1 ≤ y := by
  simp only [prevDay]
  split
  · omega
  · split <;> simp

/-! ## ISO rendering and the JavaScript Date model -/

theorem digitChar_eq_star (n : Nat) (h : 16 ≤ n) : Nat.digitChar n = '*' := by
  unfold Nat.digitChar
  iterate 16 rw [if_neg (by omega)]

theorem digitChar_ne_special (n : Nat) :
    Nat.digitChar n ≠ 'T' ∧ Nat.digitChar n ≠ ':' ∧ Nat.digitChar n ≠ '-' ∧
    Nat.digitChar n ≠ '.' ∧ Nat.digitChar n ≠ 'Z' := by
  rcases Nat.lt_or_ge n 16 with h | h
  · exact (by decide : ∀ k < 16, Nat.digitChar k ≠ 'T' ∧ Nat.digitChar k ≠ ':' ∧
      Nat.digitChar k ≠ '-' ∧ Nat.digitChar k ≠ '.' ∧ Nat.digitChar k ≠ 'Z') n h
  · rw [digitChar_eq_star n h]; decide

/-- "YYYY-MM-DD" character list of a date triple (y < 10000), as produced
by Date.prototype.toISOString().split("T")[0]. -/
def renderDateL (t : Nat × Nat × Nat) : List Char :=
  pad4l t.1 ++ '-' :: pad2l t.2.1 ++ '-' :: pad2l t.2.2

def renderDate (t : Nat × Nat × Nat) : String := String.mk (renderDateL t)

/-- "HH:MM" character list. -/
def hhmmL (h mi : Nat) : List Char := pad2l h ++ ':' :: pad2l mi

def hhmmStr (h mi : Nat) : String := String.mk (hhmmL h mi)

/-- Parse "YYYY-MM-DD" with JavaScript Date range validation. -/
def parseDateL (l : List Char) : Option (Nat × Nat × Nat) :=
  match l with
  | [y1, y2, y3, y4, '-', m1, m2, '-', d1, d2] =>
    match parse4 [y1, y2, y3, y4], parse2 [m1, m2], parse2 [d1, d2] with
    | some y, some m, some d => if validDate y m d then some (y, m, d) else none
    | _, _, _ => none
  | _ => none

/-- Milliseconds since 0000-01-01T00:00:00.000 UTC. -/
def instantMs (days h mi s ms : Nat) : Nat :=
  (((days * 24 + h) * 60 + mi) * 60 + s) * 1000 + ms

/-- The instant of a date-time with zero seconds, the only kind this
pipeline constructs. -/
def toInstant (y m d h mi : Nat) : Nat := instantMs (toDays y m d) h mi 0 0

/-- Parse the millisecond/zone tail of an ISO datetime: "", "Z", ".mmm" or
".mmmZ". -/
def parseMsTail : List Char → Option Nat
  | [] => some 0
  | ['Z'] => some 0
  | ['.', a, b, c] =>
    match digit? a, digit? b, digit? c with
    | some x, some y, some z => some (x * 100 + y * 10 + z)
    | _, _, _ => none
  | ['.', a, b, c, 'Z'] =>
    match digit? a, digit? b, digit? c with
    | some x, some y, some z => some (x * 100 + y * 10 + z)
    | _, _, _ => none
  | _ => none

/-- Model of the ECMAScript Date constructor on the string shapes this
pipeline produces, under a UTC runtime: a "YYYY-MM-DD" date (UTC midnight)
or a "YYYY-MM-DDTHH:MM:SS" datetime with optional ".mmm" milliseconds and
optional trailing "Z" (a zone-less datetime is local time, which a UTC
runtime equates with UTC).  The result is the instant in milliseconds;
none is an Invalid Date.  Component ranges are checked as the ECMAScript
ISO parser does; exotic shapes real JavaScript would also accept (expanded
years, numeric offsets, RFC 2822 dates, a bare year) never occur in this
pipeline and parse to none here. -/
def jsDateL : List Char → Option Nat
  | [y1, y2, y3, y4, '-', m1, m2, '-', d1, d2] =>
    match parse4 [y1, y2, y3, y4], parse2 [m1, m2], parse2 [d1, d2] with
    | some y, some m, some d =>
      if validDate y m d then some (instantMs (toDays y m d) 0 0 0 0) else none
    | _, _, _ => none
  | y1 :: y2 :: y3 :: y4 :: '-' :: m1 :: m2 :: '-' :: d1 :: d2 :: 'T' ::
      h1 :: h2 :: ':' :: i1 :: i2 :: ':' :: s1 :: s2 :: rest =>
    match parse4 [y1, y2, y3, y4], parse2 [m1, m2], parse2 [d1, d2],
          parse2 [h1, h2], parse2 [i1, i2], parse2 [s1, s2], parseMsTail rest with
    | some y, some m, some d, some h, some mi, some s, some ms =>
      if validDate y m d ∧ h < 24 ∧ mi < 60 ∧ s < 60 then
        some (instantMs (toDays y m d) h mi s ms)
      else none
    | _, _, _, _, _, _, _ => none
  | _ => none

def jsDate (s : String) : Option Nat := jsDateL s.data

theorem data_append (s t : String) : (s ++ t).data = s.data ++ t.data := rfl

theorem renderDateL_eq (y m d : Nat) :
    renderDateL (y, m, d) =
      [Nat.digitChar (y / 1000), Nat.digitChar (y / 100 % 10),
       Nat.digitChar (y / 10 % 10), Nat.digitChar (y % 10), '-',
       Nat.digitChar (m / 10), Nat.digitChar (m % 10), '-',
       Nat.digitChar (d / 10), Nat.digitChar (d % 10)] := rfl

theorem parseDateL_renderDateL (y m d : Nat) (hv : validDate y m d)
    (hy : y < 10000) :
    parseDateL (renderDateL (y, m, d)) = some (y, m, d) := by
  obtain ⟨h1, h2, h3, h4⟩ := hv
  have hm : m < 100 := by omega
  have hd : d < 100 := by
    have := daysInMonth_le y m
    omega
  rw [renderDateL_eq]
  simp only [parseDateL]
  rw [show [Nat.digitChar (y / 1000), Nat.digitChar (y / 100 % 10),
    Nat.digitChar (y / 10 % 10), Nat.digitChar (y % 10)] = pad4l y from rfl,
    show [Nat.digitChar (m / 10), Nat.digitChar (m % 10)] = pad2l m from rfl,
    show [Nat.digitChar (d / 10), Nat.digitChar (d % 10)] = pad2l d from rfl,
    parse4_pad4 y hy, parse2_pad2 m hm, parse2_pad2 d hd]
  show (if validDate y m d then some (y, m, d) else none) = some (y, m, d)
  rw [if_pos ⟨h1, h2, h3, h4⟩]

theorem hhmmL_eq (h mi : Nat) :
    hhmmL h mi = [Nat.digitChar (h / 10), Nat.digitChar (h % 10), ':',
                  Nat.digitChar (mi / 10), Nat.digitChar (mi % 10)] := rfl

theorem jsDateL_date (y m d : Nat) (hv : validDate y m d) (hy : y < 10000) :
    jsDateL (renderDateL (y, m, d)) = some (instantMs (toDays y m d) 0 0 0 0) := by
  obtain ⟨h1, h2, h3, h4⟩ := hv
  have hm : m < 100 := by omega
  have hd : d < 100 := by
    have := daysInMonth_le y m
    omega
  rw [renderDateL_eq]
  simp only [jsDateL]
  rw [show [Nat.digitChar (y / 1000), Nat.digitChar (y / 100 % 10),
    Nat.digitChar (y / 10 % 10), Nat.digitChar (y % 10)] = pad4l y from rfl,
    show [Nat.digitChar (m / 10), Nat.digitChar (m % 10)] = pad2l m from rfl,
    show [Nat.digitChar (d / 10), Nat.digitChar (d % 10)] = pad2l d from rfl,
    parse4_pad4 y hy, parse2_pad2 m hm, parse2_pad2 d hd]
  show (if validDate y m d then some (instantMs (toDays y m d) 0 0 0 0) else none) = _
  rw [if_pos ⟨h1, h2, h3, h4⟩]

theorem jsDateL_datetime (y m d h mi : Nat) (tail : List Char) (ms : Nat)
    (hv : validDate y m d) (hy : y < 10000) (hh : h < 24) (hmi : mi < 60)
    (htail : parseMsTail tail = some ms) :
    jsDateL (renderDateL (y, m, d) ++ 'T' :: (hhmmL h mi ++ ':' :: '0' :: '0' :: tail)) =
      some (instantMs (toDays y m d) h mi 0 ms) := by
  obtain ⟨h1, h2, h3, h4⟩ := hv
  have hm : m < 100 := by omega
  have hd : d < 100 := by
    have := daysInMonth_le y m
    omega
  rw [renderDateL_eq, hhmmL_eq]
  simp only [List.cons_append, List.nil_append, jsDateL]
  rw [show [Nat.digitChar (y / 1000), Nat.digitChar (y / 100 % 10),
    Nat.digitChar (y / 10 % 10), Nat.digitChar (y % 10)] = pad4l y from rfl,
    show [Nat.digitChar (m / 10), Nat.digitChar (m % 10)] = pad2l m from rfl,
    show [Nat.digitChar (d / 10), Nat.digitChar (d % 10)] = pad2l d from rfl,
    show [Nat.digitChar (h / 10), Nat.digitChar (h % 10)] = pad2l h from rfl,
    show [Nat.digitChar (mi / 10), Nat.digitChar (mi % 10)] = pad2l mi from rfl,
    parse4_pad4 y hy, parse2_pad2 m hm, parse2_pad2 d hd,
    parse2_pad2 h (by omega), parse2_pad2 mi (by omega),
    show parse2 ['0', '0'] = some 0 from rfl, htail]
  show (if validDate y m d ∧ h < 24 ∧ mi < 60 ∧ 0 < 60 then
    some (instantMs (toDays y m d) h mi 0 ms) else none) = _
  rw [if_pos ⟨⟨h1, h2, h3, h4⟩, hh, hmi, by omega⟩]

theorem digitChar_toNat_lt :
    ∀ x < 10, ∀ y < 10,
      ((Nat.digitChar x).toNat < (Nat.digitChar y).toNat ↔ x < y) := by
  decide

theorem jsLtL_hhmm (a b c d : Nat)
    (ha : a < 100) (hb : b < 100) (hc : c < 100) (hd : d < 100) :
    jsLtL (hhmmL a b) (hhmmL c d) = decide (a < c ∨ (a = c ∧ b < d)) := by
  have h1 : a / 10 < 10 := by omega
  have h2 : a % 10 < 10 := by omega
  have h3 : b / 10 < 10 := by omega
  have h4 : b % 10 < 10 := by omega
  have h5 : c / 10 < 10 := by omega
  have h6 : c % 10 < 10 := by omega
  have h7 : d / 10 < 10 := by omega
  have h8 : d % 10 < 10 := by omega
  rw [hhmmL_eq, hhmmL_eq]
  simp only [jsLtL, digitChar_toNat_lt _ h1 _ h5, digitChar_toNat_lt _ h5 _ h1,
    digitChar_toNat_lt _ h2 _ h6, digitChar_toNat_lt _ h6 _ h2,
    digitChar_toNat_lt _ h3 _ h7, digitChar_toNat_lt _ h7 _ h3,
    digitChar_toNat_lt _ h4 _ h8, digitChar_toNat_lt _ h8 _ h4,
    lt_self_iff_false, if_false]
  split_ifs <;> simp <;> omega

theorem instant_hour_extract (days h mi s ms : Nat)
    (hh : h < 24) (hmi : mi < 60) (hs : s < 60) (hms : ms < 1000) :
    instantMs days h mi s ms / 3600000 % 24 = h ∧
    instantMs days h mi s ms / 60000 % 60 = mi := by
  unfold instantMs
  constructor <;> omega

/-! ## Data model (src/types/skyObjects.ts) -/

inductive Vis
  | good
  | ok
  | poor
deriving DecidableEq, Repr

inductive ObjType
  | star
  | planet
  | constellation
  | other
deriving DecidableEq, Repr

structure SkyObject where
  id : String
  name : String
  type : ObjType
  visibility : Vis
  riseTime : String
  setTime : String
  magnitude : Option ℚ := none
  note : String
deriving DecidableEq, Repr

/-- One entry of the USNO rstt/oneday sundata / moondata arrays. -/
structure UEvent where
  phen : String
  time : String
deriving DecidableEq, Repr

structure USNOData where
  sundata : List UEvent
  moondata : Option (List UEvent)
  curphase : Option String
  fracillum : Option String
deriving DecidableEq, Repr

/-- USNO rstt/oneday response: geometry.coordinates is [lon, lat]. -/
structure USNOResponse where
  lon : ℚ
  lat : ℚ
  data : USNOData
deriving DecidableEq, Repr

structure AlmanacData where
  hc : ℚ
deriving DecidableEq, Repr

structure CelnavItem where
  object : String
  almanac_data : AlmanacData
  nav_star_number : Option ℚ
deriving DecidableEq, Repr

/-- USNO celnav response; properties.data may be missing or not an array,
modelled by none. -/
structure CelnavResponse where
  data : Option (List CelnavItem)
deriving DecidableEq, Repr

/-! ## Comparisons on JavaScript Date values (NaN compares false) -/

/-- a > b on Date values; an Invalid Date (none) makes it false. -/
def jsGtD (a b : Option Nat) : Bool :=
  match a, b with
  | some x, some y => x > y
  | _, _ => false

/-- a < b on Date values; an Invalid Date (none) makes it false. -/
def jsLtD (a b : Option Nat) : Bool :=
  match a, b with
  | some x, some y => x < y
  | _, _ => false

/-- a >= b on Date values; an Invalid Date (none) makes it false. -/
def jsGeD (a b : Option Nat) : Bool :=
  match a, b with
  | some x, some y => x ≥ y
  | _, _ => false

/-! ## Time/visibility utilities (astronomy.ts) -/

/-- timeToISO (astronomy.ts:175): combine "YYYY-MM-DD" and "HH:MM" into a
UTC-qualified ISO datetime string. -/
def timeToISO (date time : String) : String :=
  date ++ "T" ++ time ++ ":00.000Z"

/-- formatTime (astronomy.ts:182): new Date(isoString).toLocaleTimeString
("en-US", 2-digit/2-digit/hour12:false) under a UTC runtime.  A string the
Date constructor cannot parse yields an Invalid Date, and
toLocaleTimeString then returns the string "Invalid Date". -/
def formatTime (isoString : String) : String :=
  match jsDate isoString with
  | some t => String.mk (pad2l (t / 3600000 % 24) ++ ':' :: pad2l (t / 60000 % 60))
  | none => "Invalid Date"

/-- getSunVisibility (astronomy.ts:194).  The current clock, which the
source reads via new Date(), is the explicit last argument.  The
nextSunrise argument is either absent (undefined) or a string; an empty
string is falsy in JavaScript, so it also yields a null nextSunriseTime,
while a non-empty unparseable string yields a non-null Invalid Date. -/
def getSunVisibility (sunset : String) (nextSunrise : Option String)
    (now : Nat) : Vis :=
  let sunsetTime := jsDate sunset
  let nextSunriseTime : Option (Option Nat) :=
    match nextSunrise with
    | some nxt => if nxt ≠ "" then some (jsDate nxt) else none
    | none => none
  if jsGtD (some now) sunsetTime then
    if (match nextSunriseTime with
        | some t => jsLtD (some now) t
        | none => false) then Vis.poor
    else if nextSunriseTime.isNone then Vis.poor
    else Vis.good
  else Vis.good

/-- getMoonVisibility (astronomy.ts:222), with the clock explicit. -/
def getMoonVisibility (moonrise moonset : String) (now : Nat) : Vis :=
  let riseTime := jsDate moonrise
  let setTime := jsDate moonset
  if jsLtD setTime riseTime then
    if jsGeD (some now) riseTime || jsLtD (some now) setTime then Vis.good
    else Vis.poor
  else
    if jsGeD (some now) riseTime && jsLtD (some now) setTime then Vis.good
    else Vis.poor

/-- The planets list inside getObjectType (astronomy.ts:258). -/
def planetNames : List String :=
  ["mercury", "venus", "mars", "jupiter", "saturn", "uranus", "neptune"]

/-- getObjectType (astronomy.ts:251). -/
def getObjectType (objectName : String) (navStarNumber : Option ℚ) : ObjType :=
  let name := jsToLower objectName
  if planetNames.contains name then ObjType.planet
  else if navStarNumber.isSome then ObjType.star
  else ObjType.other

/-- getCelnavVisibility (astronomy.ts:283). -/
def getCelnavVisibility (hc : ℚ) : Vis :=
  if hc > 30 then Vis.good
  else if hc > 0 then Vis.ok
  else Vis.poor

/-! ## estimateRiseSetTimes (astronomy.ts:297) -/

/-- NaN-propagating a + k on a JavaScript number. -/
def jsAddC (a : Option Int) (k : Int) : Option Int := a.map (· + k)

/-- NaN-propagating a - k on a JavaScript number. -/
def jsSubC (a : Option Int) (k : Int) : Option Int := a.map (· - k)

/-- a < k on JavaScript numbers; NaN makes it false. -/
def jsLtC (a : Option Int) (k : Int) : Bool :=
  match a with
  | some x => x < k
  | none => false

/-- a >= k on JavaScript numbers; NaN makes it false. -/
def jsGeC (a : Option Int) (k : Int) : Bool :=
  match a with
  | some x => x ≥ k
  | none => false

/-- date.setDate(date.getDate() + k) on a valid UTC date, for the day
offsets -1, 0 and 1 the source uses. -/
def jsAddDays (t : Nat × Nat × Nat) (k : Int) : Nat × Nat × Nat :=
  if k < 0 then prevDay^[(-k).toNat] t else nextDay^[k.toNat] t

theorem jsAddDays_neg_one (t : Nat × Nat × Nat) : jsAddDays t (-1) = prevDay t := by
  rw [jsAddDays, if_pos (by norm_num : (-1 : Int) < 0)]
  norm_num

theorem jsAddDays_zero (t : Nat × Nat × Nat) : jsAddDays t 0 = t := by
  rw [jsAddDays, if_neg (by norm_num : ¬ (0 : Int) < 0)]
  simp

theorem jsAddDays_one (t : Nat × Nat × Nat) : jsAddDays t 1 = nextDay t := by
  rw [jsAddDays, if_neg (by norm_num : ¬ (1 : Int) < 0)]
  norm_num

/-- estimateRiseSetTimes (astronomy.ts:297).  hours/minutes are the
JavaScript numbers parsed from time.split(":"), with none as NaN (a
missing minutes entry, which JavaScript would render "undefined" rather
than "NaN", is conflated with NaN; neither occurs in the pipeline, which
always passes an "HH:MM" time).  A formattedDate the Date constructor
cannot parse makes the toISOString call throw, modelled by none. -/
def estimateRiseSetTimes (date time : String) (hc : ℚ) :
    Option (String × String) :=
  let formattedDate := (splitOnChar 'T' date.data).headD []
  let nums := (splitOnChar ':' time.data).map jsNumber
  let hours := nums.getD 0 none
  let minutes := nums.getD 1 none
  let adj :=
    if hc > 0 then
      let riseHours := jsSubC hours 6
      let rise :=
        if jsLtC riseHours 0 then (jsAddC riseHours 24, (-1 : Int))
        else (riseHours, 0)
      let setHours := jsAddC hours 6
      let sset :=
        if jsGeC setHours 24 then (jsSubC setHours 24, (1 : Int))
        else (setHours, 0)
      (rise, sset)
    else
      let riseHours := jsAddC hours 6
      let rise :=
        if jsGeC riseHours 24 then (jsSubC riseHours 24, (1 : Int))
        else (riseHours, 0)
      let setHours := jsAddC hours 18
      let sset :=
        if jsGeC setHours 24 then (jsSubC setHours 24, (1 : Int))
        else (setHours, 0)
      (rise, sset)
  match parseDateL formattedDate with
  | none => none
  | some base =>
    let riseDateStr := renderDateL (jsAddDays base adj.1.2)
    let setDateStr := renderDateL (jsAddDays base adj.2.2)
    some
      (String.mk (riseDateStr ++ 'T' :: (jsPad2 adj.1.1 ++ ':' :: (jsPad2 minutes ++ [':', '0', '0']))),
       String.mk (setDateStr ++ 'T' :: (jsPad2 adj.2.1 ++ ':' :: (jsPad2 minutes ++ [':', '0', '0']))))

/-- The shape of one estimated rise or set string:
"YYYY-MM-DDTHH:MM:00". -/
def mkRS (t : Nat × Nat × Nat) (hh mm : Nat) : String :=
  String.mk (renderDateL t ++ 'T' :: (pad2l hh ++ ':' :: (pad2l mm ++ [':', '0', '0'])))

theorem T_not_mem_renderDateL (t : Nat × Nat × Nat) : 'T' ∉ renderDateL t := by
  obtain ⟨y, m, d⟩ := t
  rw [renderDateL_eq]
  intro hmem
  simp only [List.mem_cons, List.not_mem_nil, or_false] at hmem
  rcases hmem with h | h | h | h | h | h | h | h | h | h <;>
    first
      | exact (digitChar_ne_special _).1 h.symm
      | exact absurd h (by decide)

theorem colon_not_mem_pad2l (n : Nat) : ':' ∉ pad2l n := by
  intro hmem
  simp only [pad2l, List.mem_cons, List.not_mem_nil, or_false] at hmem
  rcases hmem with h | h <;> exact (digitChar_ne_special _).2.1 h.symm

theorem jsNumber_pad2 : ∀ n : Nat, n < 100 → jsNumber (pad2l n) = some (n : Int) := by
  decide

theorem jsLtC_some (x k : Int) : jsLtC (some x) k = decide (x < k) := rfl

theorem jsGeC_some (x k : Int) : jsGeC (some x) k = decide (x ≥ k) := rfl

theorem jsAddC_some (x k : Int) : jsAddC (some x) k = some (x + k) := rfl

theorem jsSubC_some (x k : Int) : jsSubC (some x) k = some (x - k) := rfl

theorem estimateRiseSetTimes_eval (y m d h mi : Nat) (hc : ℚ)
    (hv : validDate y m d) (hy : y < 10000) (hh : h < 24) (hmi : mi < 60) :
    estimateRiseSetTimes (renderDate (y, m, d)) (hhmmStr h mi) hc =
      some
        (if hc > 0 then
          (mkRS (if h < 6 then prevDay (y, m, d) else (y, m, d)) ((h + 18) % 24) mi,
           mkRS (if 24 ≤ h + 6 then nextDay (y, m, d) else (y, m, d)) ((h + 6) % 24) mi)
        else
          (mkRS (if 24 ≤ h + 6 then nextDay (y, m, d) else (y, m, d)) ((h + 6) % 24) mi,
           mkRS (if 24 ≤ h + 18 then nextDay (y, m, d) else (y, m, d)) ((h + 18) % 24) mi)) := by
  have hpadmi := jsPad2_eq_pad2l mi (by omega)
  simp only [estimateRiseSetTimes,
    show (renderDate (y, m, d)).data = renderDateL (y, m, d) from rfl,
    show (hhmmStr h mi).data = pad2l h ++ ':' :: pad2l mi from rfl,
    splitOnChar_of_not_mem _ _ (T_not_mem_renderDateL (y, m, d)),
    splitOnChar_append _ _ _ (colon_not_mem_pad2l h),
    splitOnChar_of_not_mem _ _ (colon_not_mem_pad2l mi),
    List.headD_cons, List.map_cons, List.map_nil,
    List.getD_cons_zero, List.getD_cons_succ,
    jsNumber_pad2 h (by omega), jsNumber_pad2 mi (by omega),
    parseDateL_renderDateL y m d hv hy,
    jsLtC_some, jsGeC_some, jsAddC_some, jsSubC_some, hpadmi]
  by_cases hq : hc > 0
  · rw [if_pos hq, if_pos hq]
    by_cases h6 : h < 6
    · rw [if_pos (by simp; omega : decide ((h : Int) - 6 < 0) = true),
          if_pos h6,
          if_neg (by simp; omega : ¬ decide ((h : Int) + 6 ≥ 24) = true),
          if_neg (by omega : ¬ 24 ≤ h + 6)]
      simp only [jsSubC_some, jsAddC_some, jsAddDays_neg_one, jsAddDays_zero, mkRS]
      rw [show ((h : Int) - 6 + 24) = (((h + 18) % 24 : Nat) : Int) from by omega,
          show ((h : Int) + 6) = (((h + 6) % 24 : Nat) : Int) from by omega,
          jsPad2_eq_pad2l _ (by omega), jsPad2_eq_pad2l _ (by omega)]
    · by_cases h18 : 24 ≤ h + 6
      · rw [if_neg (by simp; omega : ¬ decide ((h : Int) - 6 < 0) = true),
            if_neg h6,
            if_pos (by simp; omega : decide ((h : Int) + 6 ≥ 24) = true),
            if_pos h18]
        simp only [jsSubC_some, jsAddC_some, jsAddDays_zero, jsAddDays_one, mkRS]
        rw [show ((h : Int) - 6) = (((h + 18) % 24 : Nat) : Int) from by omega,
            show ((h : Int) + 6 - 24) = (((h + 6) % 24 : Nat) : Int) from by omega,
            jsPad2_eq_pad2l _ (by omega), jsPad2_eq_pad2l _ (by omega)]
      · rw [if_neg (by simp; omega : ¬ decide ((h : Int) - 6 < 0) = true),
            if_neg h6,
            if_neg (by simp; omega : ¬ decide ((h : Int) + 6 ≥ 24) = true),
            if_neg h18]
        simp only [jsSubC_some, jsAddC_some, jsAddDays_zero, mkRS]
        rw [show ((h : Int) - 6) = (((h + 18) % 24 : Nat) : Int) from by omega,
            show ((h : Int) + 6) = (((h + 6) % 24 : Nat) : Int) from by omega,
            jsPad2_eq_pad2l _ (by omega), jsPad2_eq_pad2l _ (by omega)]
  · rw [if_neg hq, if_neg hq]
    by_cases hr : 24 ≤ h + 6
    · rw [if_pos (by simp; omega : decide ((h : Int) + 6 ≥ 24) = true),
          if_pos hr,
          if_pos (by simp; omega : decide ((h : Int) + 18 ≥ 24) = true),
          if_pos (by omega : 24 ≤ h + 18)]
      simp only [jsSubC_some, jsAddC_some, jsAddDays_one, mkRS]
      rw [show ((h : Int) + 6 - 24) = (((h + 6) % 24 : Nat) : Int) from by omega,
          show ((h : Int) + 18 - 24) = (((h + 18) % 24 : Nat) : Int) from by omega,
          jsPad2_eq_pad2l _ (by omega), jsPad2_eq_pad2l _ (by omega)]
    · by_cases hs : 24 ≤ h + 18
      · rw [if_neg (by simp; omega : ¬ decide ((h : Int) + 6 ≥ 24) = true),
            if_neg hr,
            if_pos (by simp; omega : decide ((h : Int) + 18 ≥ 24) = true),
            if_pos hs]
        simp only [jsSubC_some, jsAddC_some, jsAddDays_zero, jsAddDays_one, mkRS]
        rw [show ((h : Int) + 6) = (((h + 6) % 24 : Nat) : Int) from by omega,
            show ((h : Int) + 18 - 24) = (((h + 18) % 24 : Nat) : Int) from by omega,
            jsPad2_eq_pad2l _ (by omega), jsPad2_eq_pad2l _ (by omega)]
      · rw [if_neg (by simp; omega : ¬ decide ((h : Int) + 6 ≥ 24) = true),
            if_neg hr,
            if_neg (by simp; omega : ¬ decide ((h : Int) + 18 ≥ 24) = true),
            if_neg hs]
        simp only [jsSubC_some, jsAddC_some, jsAddDays_zero, mkRS]
        rw [show ((h : Int) + 6) = (((h + 6) % 24 : Nat) : Int) from by omega,
            show ((h : Int) + 18) = (((h + 18) % 24 : Nat) : Int) from by omega,
            jsPad2_eq_pad2l _ (by omega), jsPad2_eq_pad2l _ (by omega)]

theorem mkRS_data (t : Nat × Nat × Nat) (hh mm : Nat) :
    (mkRS t hh mm).data =
      renderDateL t ++ 'T' :: (hhmmL hh mm ++ ':' :: '0' :: '0' :: ([] : List Char)) := by
  show renderDateL t ++ 'T' :: (pad2l hh ++ ':' :: (pad2l mm ++ [':', '0', '0'])) = _
  simp [hhmmL, List.append_assoc]

theorem jsDate_mkRS (y m d hh mm : Nat) (hv : validDate y m d)
    (hy : y < 10000) (hhh : hh < 24) (hmm : mm < 60) :
    jsDate (mkRS (y, m, d) hh mm) = some (instantMs (toDays y m d) hh mm 0 0) := by
  show jsDateL (mkRS (y, m, d) hh mm).data = _
  rw [mkRS_data]
  exact jsDateL_datetime y m d hh mm [] 0 hv hy hhh hmm rfl

theorem jsDate_mkRS4 (t : Nat × Nat × Nat) (hh mm : Nat)
    (hv : validDate t.1 t.2.1 t.2.2) (hy : t.1 < 10000)
    (hhh : hh < 24) (hmm : mm < 60) :
    jsDate (mkRS t hh mm) = some (instantMs (toDays t.1 t.2.1 t.2.2) hh mm 0 0) := by
  obtain ⟨a, b, c⟩ := t
  exact jsDate_mkRS a b c hh mm hv hy hhh hmm

/-- C4: for every valid date YYYY-MM-DD (year 1..9998, so that shifting one
day stays within four-digit rendering), time HH:MM with hour h < 24 and
minute m < 60, and altitude hc, estimateRiseSetTimes returns: when hc > 0,
a riseTime with clock ((h - 6) mod 24):m — written (h + 18) % 24 in Nat —
dated one calendar day earlier exactly when h - 6 < 0, and a setTime with
clock ((h + 6) mod 24):m dated one day later exactly when h + 6 ≥ 24; when
hc ≤ 0, a riseTime ((h + 6) mod 24):m and a setTime ((h + 18) mod 24):m,
each dated one day later exactly when the respective sum reaches 24. -/
theorem claim_C4_estimateRiseSet (y m d h mi : Nat) (hc : ℚ)
    (hv : validDate y m d) (hy1 : 1 ≤ y) (hy : y ≤ 9998)
    (hh : h < 24) (hmi : mi < 60) :
    estimateRiseSetTimes (renderDate (y, m, d)) (hhmmStr h mi) hc =
      some
        (if hc > 0 then
          (mkRS (if h < 6 then prevDay (y, m, d) else (y, m, d)) ((h + 18) % 24) mi,
           mkRS (if 24 ≤ h + 6 then nextDay (y, m, d) else (y, m, d)) ((h + 6) % 24) mi)
        else
          (mkRS (if 24 ≤ h + 6 then nextDay (y, m, d) else (y, m, d)) ((h + 6) % 24) mi,
           mkRS (if 24 ≤ h + 18 then nextDay (y, m, d) else (y, m, d)) ((h + 18) % 24) mi)) :=
  estimateRiseSetTimes_eval y m d h mi hc hv (by omega) hh hmi

theorem claim_C4_witness :
    validDate 2025 12 9 ∧ 1 ≤ 2025 ∧ 2025 ≤ 9998 ∧ 3 < 24 ∧ 30 < 60 ∧
    estimateRiseSetTimes (renderDate (2025, 12, 9)) (hhmmStr 3 30) 5 =
      some (mkRS (2025, 12, 8) 21 30, mkRS (2025, 12, 9) 9 30) :=
  ⟨by decide, by decide, by decide, by decide, by decide, by
    rw [claim_C4_estimateRiseSet 2025 12 9 3 30 5 (by decide) (by decide)
      (by decide) (by decide) (by decide)]
    norm_num
    decide⟩

/-- C9: for every valid date (year 1..9998), time HH:MM and altitude hc,
the estimated window spans exactly 12 hours: the instant denoted by
setTime equals the instant denoted by riseTime plus 12 hours, in both the
above-horizon and below-horizon branches, including every
day-boundary-crossing case. -/
theorem claim_C9_twelve_hour_window (y m d h mi : Nat) (hc : ℚ)
    (hv : validDate y m d) (hy1 : 1 ≤ y) (hy : y ≤ 9998)
    (hh : h < 24) (hmi : mi < 60) :
    ∃ rise sett tr ts,
      estimateRiseSetTimes (renderDate (y, m, d)) (hhmmStr h mi) hc = some (rise, sett) ∧
      jsDate rise = some tr ∧ jsDate sett = some ts ∧ ts = tr + 12 * 3600000 := by
  rw [estimateRiseSetTimes_eval y m d h mi hc hv (by omega) hh hmi]
  have hnext := toDays_nextDay y m d hv
  have hprev := toDays_prevDay y m d hv hy1
  simp only [] at hnext hprev
  have hyn : (nextDay (y, m, d)).1 < 10000 :=
    Nat.lt_of_le_of_lt (nextDay_year_le y m d) (by omega)
  have hyp : (prevDay (y, m, d)).1 < 10000 :=
    Nat.lt_of_le_of_lt (prevDay_year_le y m d) (by omega)
  by_cases hq : hc > 0
  · simp only [if_pos hq]
    by_cases h6 : h < 6
    · simp only [if_pos h6, if_neg (by omega : ¬ 24 ≤ h + 6)]
      refine ⟨_, _, _, _, rfl,
        jsDate_mkRS4 (prevDay (y, m, d)) _ _ (validDate_prevDay y m d hv) hyp
          (by omega) hmi,
        jsDate_mkRS y m d _ _ hv (by omega) (by omega) hmi, ?_⟩
      unfold instantMs
      omega
    · by_cases h18 : 24 ≤ h + 6
      · simp only [if_neg h6, if_pos h18]
        refine ⟨_, _, _, _, rfl,
          jsDate_mkRS y m d _ _ hv (by omega) (by omega) hmi,
          jsDate_mkRS4 (nextDay (y, m, d)) _ _ (validDate_nextDay y m d hv) hyn
            (by omega) hmi, ?_⟩
        unfold instantMs
        omega
      · simp only [if_neg h6, if_neg h18]
        refine ⟨_, _, _, _, rfl,
          jsDate_mkRS y m d _ _ hv (by omega) (by omega) hmi,
          jsDate_mkRS y m d _ _ hv (by omega) (by omega) hmi, ?_⟩
        unfold instantMs
        omega
  · simp only [if_neg hq]
    by_cases hr : 24 ≤ h + 6
    · simp only [if_pos hr, if_pos (by omega : 24 ≤ h + 18)]
      refine ⟨_, _, _, _, rfl,
        jsDate_mkRS4 (nextDay (y, m, d)) _ _ (validDate_nextDay y m d hv) hyn
          (by omega) hmi,
        jsDate_mkRS4 (nextDay (y, m, d)) _ _ (validDate_nextDay y m d hv) hyn
          (by omega) hmi, ?_⟩
      unfold instantMs
      omega
    · by_cases hs : 24 ≤ h + 18
      · simp only [if_neg hr, if_pos hs]
        refine ⟨_, _, _, _, rfl,
          jsDate_mkRS y m d _ _ hv (by omega) (by omega) hmi,
          jsDate_mkRS4 (nextDay (y, m, d)) _ _ (validDate_nextDay y m d hv) hyn
            (by omega) hmi, ?_⟩
        unfold instantMs
        omega
      · simp only [if_neg hr, if_neg hs]
        refine ⟨_, _, _, _, rfl,
          jsDate_mkRS y m d _ _ hv (by omega) (by omega) hmi,
          jsDate_mkRS y m d _ _ hv (by omega) (by omega) hmi, ?_⟩
        unfold instantMs
        omega

theorem claim_C9_witness :
    validDate 2025 12 21 ∧ 1 ≤ 2025 ∧ 2025 ≤ 9998 ∧ 20 < 24 ∧ 15 < 60 ∧
    ∃ rise sett tr ts,
      estimateRiseSetTimes (renderDate (2025, 12, 21)) (hhmmStr 20 15) 10 = some (rise, sett) ∧
      jsDate rise = some tr ∧ jsDate sett = some ts ∧ ts = tr + 12 * 3600000 :=
  ⟨by decide, by decide, by decide, by decide, by decide,
    claim_C9_twelve_hour_window 2025 12 21 20 15 10 (by decide) (by decide)
      (by decide) (by decide) (by decide)⟩

/-! ## timeToISO roundtrips -/

theorem timeToISO_data (date time : String) :
    (timeToISO date time).data =
      date.data ++ 'T' :: (time.data ++ ':' :: '0' :: '0' :: ['.', '0', '0', '0', 'Z']) := by
  show (date ++ "T" ++ time ++ ":00.000Z").data = _
  rw [data_append, data_append, data_append,
    show ("T" : String).data = ['T'] from rfl,
    show (":00.000Z" : String).data = [':', '0', '0', '.', '0', '0', '0', 'Z'] from rfl]
  simp [List.append_assoc]

theorem timeToISO_ne_empty (date time : String) : timeToISO date time ≠ "" := by
  intro h
  have hd := congrArg String.data h
  rw [timeToISO_data] at hd
  have : (("" : String).data : List Char) = [] := rfl
  rw [this] at hd
  exact List.append_ne_nil_of_right_ne_nil _ (by simp) hd

theorem jsDate_timeToISO (y m d h mi : Nat) (hv : validDate y m d)
    (hy : y < 10000) (hh : h < 24) (hmi : mi < 60) :
    jsDate (timeToISO (renderDate (y, m, d)) (hhmmStr h mi)) =
      some (toInstant y m d h mi) := by
  show jsDateL _ = _
  rw [timeToISO_data,
    show (renderDate (y, m, d)).data = renderDateL (y, m, d) from rfl,
    show (hhmmStr h mi).data = hhmmL h mi from rfl]
  exact jsDateL_datetime y m d h mi ['.', '0', '0', '0', 'Z'] 0 hv hy hh hmi (by decide)

/-! ## Claim C1: formatTime on malformed and well-formed input -/

/-- C1 counterexample: the input "not-a-date" is not a well-formed ISO
datetime (the Date constructor cannot parse it), yet formatTime returns
the string "Invalid Date", not the original string unchanged. -/
theorem claim_C1_counterexample :
    jsDate "not-a-date" = none ∧
    formatTime "not-a-date" = "Invalid Date" ∧
    formatTime "not-a-date" ≠ "not-a-date" := by
  refine ⟨by decide, by decide, by decide⟩

/-- C1 (amended): formatTime does not throw on any input; on a string the
Date constructor cannot parse it returns the fixed locale rendering
"Invalid Date" — not the original string — and on a well-formed ISO
datetime it returns the HH:MM display time. -/
theorem claim_C1_formatTime :
    (∀ s : String, jsDate s = none → formatTime s = "Invalid Date") ∧
    (∀ y m d h mi : Nat, validDate y m d → y < 10000 → h < 24 → mi < 60 →
      formatTime (timeToISO (renderDate (y, m, d)) (hhmmStr h mi)) = hhmmStr h mi) := by
  constructor
  · intro s hs
    unfold formatTime
    rw [hs]
  · intro y m d h mi hv hy hh hmi
    unfold formatTime
    rw [jsDate_timeToISO y m d h mi hv hy hh hmi]
    have hex := instant_hour_extract (toDays y m d) h mi 0 0 hh hmi (by omega) (by omega)
    show String.mk (pad2l (toInstant y m d h mi / 3600000 % 24) ++
      ':' :: pad2l (toInstant y m d h mi / 60000 % 60)) = _
    rw [show toInstant y m d h mi = instantMs (toDays y m d) h mi 0 0 from rfl,
      hex.1, hex.2]
    rfl

theorem claim_C1_witness :
    (jsDate "garbage" = none ∧ formatTime "garbage" = "Invalid Date") ∧
    (validDate 2025 12 9 ∧
      formatTime (timeToISO (renderDate (2025, 12, 9)) (hhmmStr 14 15)) = hhmmStr 14 15) :=
  ⟨⟨by decide, claim_C1_formatTime.1 "garbage" (by decide)⟩,
   ⟨by decide, claim_C1_formatTime.2 2025 12 9 14 15 (by decide) (by decide)
      (by decide) (by decide)⟩⟩

/-! ## Claims C2 and C5: the sun-visibility rule -/

/-- The sun-visibility decision written as one explicit formula of its
three inputs: the sunset string, the optional next-sunrise string and the
ambient clock instant. -/
def sunVisRule (sunset : String) (nextSunrise : Option String) (now : Nat) : Vis :=
  let past := jsGtD (some now) (jsDate sunset)
  let nextPresent : Bool :=
    match nextSunrise with
    | some nxt => nxt ≠ ""
    | none => false
  let beforeNext : Bool :=
    match nextSunrise with
    | some nxt => if nxt ≠ "" then jsLtD (some now) (jsDate nxt) else false
    | none => false
  if past && ((nextPresent && beforeNext) || !nextPresent) then Vis.poor
  else Vis.good

/-- C2 counterexample: getSunVisibility reads the ambient clock
(new Date()), a hidden input beyond its two declared arguments — the same
(sunset, nextSunrise) pair classifies good at noon and poor in the
evening of the same day, so the result is not a function of the declared
arguments alone. -/
theorem claim_C2_counterexample :
    getSunVisibility (timeToISO (renderDate (2025, 12, 9)) (hhmmStr 16 0))
        (some (timeToISO (renderDate (2025, 12, 10)) (hhmmStr 7 0)))
        (toInstant 2025 12 9 12 0) = Vis.good ∧
    getSunVisibility (timeToISO (renderDate (2025, 12, 9)) (hhmmStr 16 0))
        (some (timeToISO (renderDate (2025, 12, 10)) (hhmmStr 7 0)))
        (toInstant 2025 12 9 20 0) = Vis.poor := by
  constructor <;> decide

/-- C2 (amended): once the ambient clock is made an explicit third input,
the sun-visibility rule is pure and deterministic — it equals the closed
decision formula sunVisRule of exactly (sunset, nextSunrise, clock
instant), so two invocations with identical values of those three inputs
yield identical results. -/
theorem claim_C2_deterministic (sunset : String) (nextSunrise : Option String)
    (now : Nat) :
    getSunVisibility sunset nextSunrise now = sunVisRule sunset nextSunrise now := by
  unfold getSunVisibility sunVisRule
  cases nextSunrise with
  | none =>
    simp only [Option.isNone]
    split_ifs <;> simp_all
  | some nxt =>
    by_cases hne : nxt = ""
    · subst hne
      simp only [Option.isNone]
      split_ifs <;> simp_all
    · simp only [Option.isNone, if_neg, hne, ne_eq, not_false_eq_true, if_true]
      split_ifs <;> simp_all

theorem getSunVisibility_none (sunset : String) (now : Nat) :
    getSunVisibility sunset none now =
      if jsGtD (some now) (jsDate sunset) then Vis.poor else Vis.good := by
  unfold getSunVisibility
  simp only [Option.isNone_none]
  split_ifs <;> simp_all

theorem getSunVisibility_some_empty (sunset : String) (now : Nat) :
    getSunVisibility sunset (some "") now =
      if jsGtD (some now) (jsDate sunset) then Vis.poor else Vis.good := by
  unfold getSunVisibility
  simp only [ne_eq, not_true_eq_false, if_false, Option.isNone_none]
  split_ifs <;> simp_all

theorem getSunVisibility_some_ne (sunset nxt : String) (hne : nxt ≠ "")
    (now : Nat) :
    getSunVisibility sunset (some nxt) now =
      if jsGtD (some now) (jsDate sunset) then
        (if jsLtD (some now) (jsDate nxt) then Vis.poor else Vis.good)
      else Vis.good := by
  unfold getSunVisibility
  simp only [ne_eq, hne, not_false_eq_true, if_true, Option.isNone_some]
  split_ifs <;> simp_all

/-- C5: for every sunset instant (given as the ISO string the adapter
constructs for it) and every optional next-sunrise instant, the
classification is poor exactly when the current instant is after sunset
and (nextSunrise is absent, or the current instant is before nextSunrise),
and good in every other case; the result is never ok. -/
theorem claim_C5_sun_visibility :
    (∀ sy sm sd sh smi now, validDate sy sm sd → sy < 10000 → sh < 24 → smi < 60 →
      getSunVisibility (timeToISO (renderDate (sy, sm, sd)) (hhmmStr sh smi)) none now =
        (if toInstant sy sm sd sh smi < now then Vis.poor else Vis.good)) ∧
    (∀ sy sm sd sh smi ny nm nd nh nmi now,
      validDate sy sm sd → sy < 10000 → sh < 24 → smi < 60 →
      validDate ny nm nd → ny < 10000 → nh < 24 → nmi < 60 →
      getSunVisibility (timeToISO (renderDate (sy, sm, sd)) (hhmmStr sh smi))
          (some (timeToISO (renderDate (ny, nm, nd)) (hhmmStr nh nmi))) now =
        (if toInstant sy sm sd sh smi < now ∧ now < toInstant ny nm nd nh nmi
         then Vis.poor else Vis.good)) ∧
    (∀ sunset nextSunrise now, getSunVisibility sunset nextSunrise now ≠ Vis.ok) := by
  refine ⟨?_, ?_, ?_⟩
  · intro sy sm sd sh smi now hv hy hh hmi
    rw [getSunVisibility_none, jsDate_timeToISO sy sm sd sh smi hv hy hh hmi]
    simp only [jsGtD]
    split_ifs <;> simp_all
  · intro sy sm sd sh smi ny nm nd nh nmi now hv hy hh hmi hv2 hy2 hh2 hmi2
    rw [getSunVisibility_some_ne _ _ (timeToISO_ne_empty _ _),
      jsDate_timeToISO sy sm sd sh smi hv hy hh hmi,
      jsDate_timeToISO ny nm nd nh nmi hv2 hy2 hh2 hmi2]
    simp only [jsGtD, jsLtD]
    split_ifs <;> simp_all
  · intro sunset nextSunrise now
    cases nextSunrise with
    | none =>
      rw [getSunVisibility_none]
      split_ifs <;> simp
    | some nxt =>
      by_cases hne : nxt = ""
      · subst hne
        rw [getSunVisibility_some_empty]
        split_ifs <;> simp
      · rw [getSunVisibility_some_ne _ _ hne]
        split_ifs <;> simp

theorem claim_C5_witness :
    validDate 2025 12 9 ∧ validDate 2025 12 10 ∧
    getSunVisibility (timeToISO (renderDate (2025, 12, 9)) (hhmmStr 16 0))
        (some (timeToISO (renderDate (2025, 12, 10)) (hhmmStr 7 0)))
        (toInstant 2025 12 9 21 0) =
      (if toInstant 2025 12 9 16 0 < toInstant 2025 12 9 21 0 ∧
          toInstant 2025 12 9 21 0 < toInstant 2025 12 10 7 0
       then Vis.poor else Vis.good) :=
  ⟨by decide, by decide,
    claim_C5_sun_visibility.2.1 2025 12 9 16 0 2025 12 10 7 0
      (toInstant 2025 12 9 21 0) (by decide) (by decide) (by decide) (by decide)
      (by decide) (by decide) (by decide) (by decide)⟩

/-! ## The celnav fetch and the adapter mapping (astronomy.ts) -/

/-- Outcome of one HTTP fetch as the adapter sees it: the network/JSON
layer may throw, return a non-2xx response, or deliver a parsed body. -/
inductive FetchOutcome (α : Type)
  | thrown
  | notOk
  | ok (body : α)
deriving DecidableEq, Repr

/-- The test /^\d{4}-\d{2}-\d{2}$/.test(s). -/
def dateRegexTest : List Char → Bool
  | [a, b, c, d, '-', e, f, '-', g, i] =>
    (digit? a).isSome && (digit? b).isSome && (digit? c).isSome &&
    (digit? d).isSome && (digit? e).isSome && (digit? f).isSome &&
    (digit? g).isSome && (digit? i).isSome
  | _ => false

/-- The test /^\d{2}:\d{2}$/.test(s). -/
def timeRegexTest : List Char → Bool
  | [a, b, ':', c, d] =>
    (digit? a).isSome && (digit? b).isSome && (digit? c).isSome && (digit? d).isSome
  | _ => false

/-- The truthiness of s.match(/^(\d{2}):(\d{2})/). -/
def timeStartTest : List Char → Bool
  | a :: b :: ':' :: c :: d :: _ =>
    (digit? a).isSome && (digit? b).isSome && (digit? c).isSome && (digit? d).isSome
  | _ => false

/-- fetchCelnavData (astronomy.ts:124).  The whole body sits in a
try/catch, so every failure path — malformed date, malformed time, a
thrown fetch, a non-2xx status, or a body whose JSON parse throws —
returns null (none).  The lat/lon arguments only feed the URL. -/
def fetchCelnavData (lat lon : ℚ) (date time : String)
    (outcome : FetchOutcome CelnavResponse) : Option CelnavResponse :=
  let formattedDate := (splitOnChar 'T' date.data).headD []
  if !dateRegexTest formattedDate then none
  else
    let formattedTime := if timeStartTest time.data then time.data.take 5 else time.data
    if !timeRegexTest formattedTime then none
    else
      match outcome with
      | FetchOutcome.thrown => none
      | FetchOutcome.notOk => none
      | FetchOutcome.ok body => some body

/-- KNOWN_OBJECTS (astronomy.ts:61). -/
def KNOWN_OBJECTS : List String :=
  ["Mercury", "Venus", "Mars", "Jupiter", "Saturn",
   "Orion", "Ursa Major", "Ursa Minor", "Cassiopeia", "Cygnus", "Lyra",
   "Andromeda", "Perseus", "Taurus", "Gemini", "Leo", "Scorpius",
   "Sagittarius", "Pegasus",
   "Big Dipper", "Orion\x27s Belt", "Pleiades",
   "Crux"]

/-- Model of altitude.toFixed(1) on a rational altitude (round half away
handled as round half up; the binary-float edge cases of the real toFixed
are immaterial here — no claim inspects note strings). -/
def toFixed1 (q : ℚ) : String :=
  let n : Int := ⌊q * 10 + 1 / 2⌋
  let a := n.natAbs
  (if n < 0 then "-" else "") ++ String.mk (Nat.toDigits 10 (a / 10)) ++ "." ++
    String.mk [Nat.digitChar (a % 10)]

/-- One iteration of the loop in mapCelnavObjectsToSkyObjects
(astronomy.ts:375): none = the toISOString call inside
estimateRiseSetTimes throws; some none = the item is skipped (continue);
some (some o) = o is pushed. -/
def mapCelnavItem (date time : String) (item : CelnavItem) :
    Option (Option SkyObject) :=
  let objectName := item.object
  if objectName = "" ∨ jsToLower objectName = "sun" ∨ jsToLower objectName = "moon" then
    some none
  else
    let normalizedName := jsTrim objectName
    let isKnown := KNOWN_OBJECTS.any (fun known => jsToLower known = jsToLower normalizedName)
    if !isKnown then some none
    else
      match estimateRiseSetTimes date time item.almanac_data.hc with
      | none => none
      | some (riseTime, setTime) =>
        let altitude := item.almanac_data.hc
        let note :=
          if altitude > 0 then
            "Visible tonight at " ++ toFixed1 altitude ++ "° altitude"
          else "Below horizon, will rise later tonight"
        some (some {
          id := String.mk (collapseWs (jsToLower objectName).data),
          name := objectName,
          type := getObjectType objectName item.nav_star_number,
          visibility := getCelnavVisibility item.almanac_data.hc,
          riseTime := riseTime,
          setTime := setTime,
          note := note })

/-- mapCelnavObjectsToSkyObjects (astronomy.ts:361); none models an
exception escaping the loop. -/
def mapCelnavObjectsToSkyObjects (celnavData : CelnavResponse)
    (date time : String) : Option (List SkyObject) :=
  match celnavData.data with
  | none => some []
  | some items =>
    items.foldr
      (fun item acc =>
        match mapCelnavItem date time item, acc with
        | none, _ => none
        | _, none => none
        | some none, some rest => some rest
        | some (some o), some rest => some (o :: rest))
      (some [])

/-- The Moon object pushed by mapAstronomyDataToSkyObjects
(astronomy.ts:560), note building included (curphase/fracillum are
appended only when truthy, i.e. present and non-empty). -/
def moonObject (data : USNOResponse) (moonrise moonset : String) (now : Nat) :
    SkyObject :=
  let moonVisibility := getMoonVisibility moonrise moonset now
  let note0 := "Moonrise at " ++ formatTime moonrise ++ " / Moonset at " ++ formatTime moonset
  let note :=
    match data.data.curphase with
    | some cp =>
      if cp ≠ "" then
        let note1 := note0 ++ " (" ++ cp
        let note2 :=
          match data.data.fracillum with
          | some fi => if fi ≠ "" then note1 ++ ", " ++ fi ++ " illuminated" else note1
          | none => note1
        note2 ++ ")"
      else note0
    | none => note0
  { id := "moon", name := "Moon", type := ObjType.other,
    visibility := moonVisibility, riseTime := moonrise, setTime := moonset,
    note := note }

/-- The Sun part of mapAstronomyDataToSkyObjects (astronomy.ts:463-522):
emits nothing when either sun event is missing; otherwise computes
sunrise/sunset, tomorrow's date (whose toISOString throws — none — on an
unparseable date), the best-effort next sunrise, and the Sun object. -/
def sunObjects (data : USNOResponse) (formattedDate : List Char) (now : Nat)
    (tomorrowOutcome : FetchOutcome USNOResponse) : Option (List SkyObject) :=
  match data.data.sundata.find? (fun e => e.phen = "Rise"),
        data.data.sundata.find? (fun e => e.phen = "Set") with
  | some sunRiseEvent, some sunSetEvent =>
    let sunrise := timeToISO (String.mk formattedDate) sunRiseEvent.time
    let sunset := timeToISO (String.mk formattedDate) sunSetEvent.time
    match parseDateL formattedDate with
    | none => none
    | some base =>
      let tomorrowDate := String.mk (renderDateL (nextDay base))
      let nextSunrise : Option String :=
        match tomorrowOutcome with
        | FetchOutcome.ok td =>
          match td.data.sundata.find? (fun e => e.phen = "Rise") with
          | some tre => some (timeToISO tomorrowDate tre.time)
          | none => none
        | _ => none
      some [{ id := "sun", name := "Sun", type := ObjType.star,
              visibility := getSunVisibility sunset nextSunrise now,
              riseTime := sunrise, setTime := sunset,
              note := "Sunrise at " ++ formatTime sunrise ++ " / Sunset at " ++
                formatTime sunset }]
  | _, _ => some []

/-- The Moon part of mapAstronomyDataToSkyObjects (astronomy.ts:524-570):
emits nothing without moondata or when either event is missing; rolls
moonset to the next calendar day when the set clock string compares below
the rise clock string (JavaScript string <). -/
def moonObjects (data : USNOResponse) (formattedDate : List Char) (now : Nat) :
    Option (List SkyObject) :=
  match data.data.moondata with
  | none => some []
  | some moondata =>
    match moondata.find? (fun e => e.phen = "Rise"),
          moondata.find? (fun e => e.phen = "Set") with
    | some moonRiseEvent, some moonSetEvent =>
      let moonrise := timeToISO (String.mk formattedDate) moonRiseEvent.time
      if jsStrLt moonSetEvent.time moonRiseEvent.time then
        match parseDateL formattedDate with
        | none => none
        | some base =>
          let moonset := timeToISO (String.mk (renderDateL (nextDay base))) moonSetEvent.time
          some [moonObject data moonrise moonset now]
      else
        some [moonObject data moonrise (timeToISO (String.mk formattedDate) moonSetEvent.time) now]
    | _, _ => some []

/-- mapAstronomyDataToSkyObjects (astronomy.ts:432).  The ambient clock is
the explicit instant now; the two network calls the function itself makes
(celnav for the current instant, tomorrow's rstt oneday) are the explicit
outcome arguments.  Celnav objects come first, then Sun, then Moon; none
models an exception escaping the function (the route wraps the call in a
try/catch of its own). -/
def mapAstronomyDataToSkyObjects (data : USNOResponse) (date : String)
    (now : Nat) (celnavOutcome : FetchOutcome CelnavResponse)
    (tomorrowOutcome : FetchOutcome USNOResponse) : Option (List SkyObject) :=
  let formattedDate := (splitOnChar 'T' date.data).headD []
  let currentTime := String.mk (pad2l (now / 3600000 % 24) ++ ':' :: pad2l (now / 60000 % 60))
  let celnavData := fetchCelnavData data.lat data.lon (String.mk formattedDate)
    currentTime celnavOutcome
  let celnavObjects : Option (List SkyObject) :=
    match celnavData with
    | some cd => mapCelnavObjectsToSkyObjects cd (String.mk formattedDate) currentTime
    | none => some []
  match celnavObjects with
  | none => none
  | some objs0 =>
    match sunObjects data formattedDate now tomorrowOutcome with
    | none => none
    | some sunObjs =>
      match moonObjects data formattedDate now with
      | none => none
      | some moonObjs => some (objs0 ++ sunObjs ++ moonObjs)

/-! ## GET /api/sky-objects (route.ts, USNO variant) -/

structure GeocodeResult where
  lat : ℚ
  lon : ℚ
  resolvedName : String
deriving DecidableEq, Repr

structure Location where
  query : String
  resolvedName : String
  lat : ℚ
  lon : ℚ
deriving DecidableEq, Repr

inductive ErrCode
  | INVALID_LOCATION
  | UPSTREAM_ERROR
  | UNKNOWN
deriving DecidableEq, Repr

structure SuccessBody where
  location : Location
  date : String
  objects : List SkyObject
deriving DecidableEq, Repr

inductive RouteResponse
  | error (status : Nat) (code : ErrCode) (message : String)
  | success (status : Nat) (body : SuccessBody)
deriving DecidableEq, Repr

/-- Civil date from a day number (days since 0000-01-01), the Gregorian
inverse used to model today.toISOString().split("T")[0].  Only feeds the
date string the route embeds and hands to the adapter; no claim depends
on its arithmetic being the exact inverse of toDays. -/
def civilFromDays (n : Nat) : Nat × Nat × Nat :=
  let z : Int := (n : Int) - 60
  let era : Int := (if z ≥ 0 then z else z - 146096) / 146097
  let doe : Int := z - era * 146097
  let yoe : Int := (doe - doe / 1460 + doe / 36524 - doe / 146096) / 365
  let y : Int := yoe + era * 400
  let doy : Int := doe - (365 * yoe + yoe / 4 - yoe / 100)
  let mp : Int := (5 * doy + 2) / 153
  let dd : Int := doy - (153 * mp + 2) / 5 + 1
  let mm : Int := mp + (if mp < 10 then 3 else (-9 : Int))
  let yy : Int := y + (if mm ≤ 2 then 1 else 0)
  (yy.toNat, mm.toNat, dd.toNat)

/-- The UTC calendar date of a clock instant. -/
def dateOfInstant (now : Nat) : Nat × Nat × Nat := civilFromDays (now / 86400000)

/-- Steps 4-6 of the route handler (route.ts:151-182): turn the outcome of
mapAstronomyDataToSkyObjects (none = it threw) into the response. -/
def respondWithObjects (location : Location) (date : String)
    (mapResult : Option (List SkyObject)) : RouteResponse :=
  match mapResult with
  | none =>
    RouteResponse.error 500 ErrCode.UPSTREAM_ERROR "Failed to process astronomy data."
  | some objects =>
    if objects.length = 0 then
      RouteResponse.error 500 ErrCode.UPSTREAM_ERROR "No astronomy data available."
    else
      RouteResponse.success 200
        { location := location, date := date, objects := objects }

/-- GET /api/sky-objects (route.ts:92).  locationQuery is the query
parameter (none when absent); the geocode and primary-fetch collaborators
and the ambient clock are explicit arguments.  Error messages that
interpolate a thrown error's text are modelled by their fixed prefixes;
no claim inspects them. -/
def GET : Option String → Except String GeocodeResult →
    Except String USNOResponse → Nat → FetchOutcome CelnavResponse →
    FetchOutcome USNOResponse → RouteResponse
  | none, _, _, _, _, _ =>
    RouteResponse.error 400 ErrCode.INVALID_LOCATION "Location parameter is required."
  | some lq, geocodeOutcome, fetchOutcome, now, celnavOutcome, tomorrowOutcome =>
    if jsTrim lq = "" then
      RouteResponse.error 400 ErrCode.INVALID_LOCATION "Location parameter is required."
    else
      match geocodeOutcome with
      | Except.error e =>
        RouteResponse.error 400 ErrCode.INVALID_LOCATION ("Could not resolve location: " ++ e)
      | Except.ok geocodeResult =>
        match fetchOutcome with
        | Except.error e =>
          RouteResponse.error 500 ErrCode.UPSTREAM_ERROR ("Failed to fetch astronomy data: " ++ e)
        | Except.ok astronomyData =>
          respondWithObjects
            { query := lq,
              resolvedName := geocodeResult.resolvedName,
              lat := geocodeResult.lat,
              lon := geocodeResult.lon }
            (String.mk (renderDateL (dateOfInstant now)))
            (mapAstronomyDataToSkyObjects astronomyData
              (String.mk (renderDateL (dateOfInstant now))) now celnavOutcome
              tomorrowOutcome)

/-! ## POST /api/stella-chat (stella-chat/route.ts) -/

structure ChatMessage where
  role : String
  content : String
deriving DecidableEq, Repr

structure ChatBody where
  location : String
  date : String
  objects : List SkyObject
  messages : List ChatMessage
deriving DecidableEq, Repr

/-- validateRequest (stella-chat/route.ts:13), as the boolean outcome of
the field checks (the per-field error messages are not modelled; no claim
inspects them). -/
def validateRequest (body : ChatBody) : Bool :=
  !(body.location = "" || jsTrim body.location = "") &&
  !(body.date = "") && dateRegexTest body.date.data &&
  body.objects.length != 0 &&
  body.messages.length != 0 &&
  body.messages.any (fun msg => msg.role = "user") &&
  body.messages.all (fun msg =>
    (msg.role = "user" || msg.role = "assistant") &&
    !(msg.content = "") && !(jsTrim msg.content = ""))

/-- findSuggestedObjectId (stella-chat/route.ts:71). -/
def findSuggestedObjectId (objects : List SkyObject) : Option String :=
  (objects.find? (fun obj => obj.visibility = Vis.good)).map (fun obj => obj.id)

inductive ChatErr
  | BAD_REQUEST
  | MODEL_ERROR
  | INTERNAL_ERROR
deriving DecidableEq, Repr

/-- The chat success payload; meta is the optional
meta.suggestedObjectId. -/
structure ChatSuccess where
  reply : String
  meta : Option String
deriving DecidableEq, Repr

inductive ChatResponse
  | error (status : Nat) (code : ChatErr) (message : String)
  | success (status : Nat) (body : ChatSuccess)
deriving DecidableEq, Repr

/-- POST /api/stella-chat (stella-chat/route.ts:76).  body none models a
JSON parse failure; modelOutcome the callStellaModel promise.  The spread
...(suggestedObjectId && { meta: { suggestedObjectId } }) omits meta both
when no object has good visibility and when the found id is the falsy
empty string. -/
def POST (body : Option ChatBody) (modelOutcome : Except String String) :
    ChatResponse :=
  match body with
  | none => ChatResponse.error 400 ChatErr.BAD_REQUEST "Invalid JSON in request body"
  | some b =>
    if !validateRequest b then
      ChatResponse.error 400 ChatErr.BAD_REQUEST "Invalid request"
    else
      match modelOutcome with
      | Except.error e => ChatResponse.error 502 ChatErr.MODEL_ERROR e
      | Except.ok reply =>
        ChatResponse.success 200
          { reply := reply,
            meta :=
              match findSuggestedObjectId b.objects with
              | some sid => if sid ≠ "" then some sid else none
              | none => none }

set_option maxHeartbeats 1600000 in
/-- C7: whenever location validation, geocoding and the primary fetch all
succeed and the astronomy mapping yields an empty object list, the
endpoint returns HTTP 500 with code UPSTREAM_ERROR; and no 200 success
response ever carries an empty objects array. -/
theorem claim_C7_empty_objects :
    (∀ lq geo data now celnavOutcome tomorrowOutcome,
      jsTrim lq ≠ "" →
      mapAstronomyDataToSkyObjects data (String.mk (renderDateL (dateOfInstant now)))
          now celnavOutcome tomorrowOutcome = some [] →
      GET (some lq) (Except.ok geo) (Except.ok data) now celnavOutcome tomorrowOutcome =
        RouteResponse.error 500 ErrCode.UPSTREAM_ERROR "No astronomy data available.") ∧
    (∀ lq geo fo now celnavOutcome tomorrowOutcome st body,
      GET lq geo fo now celnavOutcome tomorrowOutcome =
          RouteResponse.success st body →
      st = 200 ∧ body.objects ≠ []) := by
  constructor
  · intro lq geo data now c t hne hmap
    simp only [GET]
    rw [if_neg hne, hmap]
    rfl
  · intro lq geo fo now c t st body hsuc
    cases lq with
    | none =>
      simp only [GET] at hsuc
      exact absurd hsuc (by simp)
    | some q =>
      simp only [GET] at hsuc
      by_cases htrim : jsTrim q = ""
      · rw [if_pos htrim] at hsuc
        exact absurd hsuc (by simp)
      · rw [if_neg htrim] at hsuc
        cases geo with
        | error e =>
          dsimp only at hsuc
          exact absurd hsuc (by simp)
        | ok g =>
          cases fo with
          | error e =>
            dsimp only at hsuc
            exact absurd hsuc (by simp)
          | ok data =>
            dsimp only at hsuc
            cases hm : mapAstronomyDataToSkyObjects data
                (String.mk (renderDateL (dateOfInstant now))) now c t with
            | none =>
              rw [hm] at hsuc
              simp only [respondWithObjects] at hsuc
              exact absurd hsuc (by simp)
            | some objects =>
              rw [hm] at hsuc
              simp only [respondWithObjects] at hsuc
              by_cases hlen : objects.length = 0
              · rw [if_pos hlen] at hsuc
                exact absurd hsuc (by simp)
              · rw [if_neg hlen] at hsuc
                injection hsuc with h1 h2
                refine ⟨h1.symm, ?_⟩
                rw [← h2]
                show objects ≠ []
                intro hempty
                apply hlen
                rw [hempty]
                rfl

theorem claim_C7_witness :
    jsTrim "Denver" ≠ "" ∧
    mapAstronomyDataToSkyObjects
        ⟨-104, 39, ⟨[], none, none, none⟩⟩
        (String.mk (renderDateL (dateOfInstant 0))) 0
        FetchOutcome.thrown FetchOutcome.thrown = some [] ∧
    GET (some "Denver") (Except.ok ⟨39, -104, "Denver, Colorado"⟩)
        (Except.ok ⟨-104, 39, ⟨[], none, none, none⟩⟩) 0
        FetchOutcome.thrown FetchOutcome.thrown =
      RouteResponse.error 500 ErrCode.UPSTREAM_ERROR "No astronomy data available." :=
  ⟨by decide, by decide,
    claim_C7_empty_objects.1 "Denver" ⟨39, -104, "Denver, Colorado"⟩
      ⟨-104, 39, ⟨[], none, none, none⟩⟩ 0 FetchOutcome.thrown FetchOutcome.thrown
      (by decide) (by decide)⟩

/-- The C8 counterexample request: validated, one object, whose (first)
good-visibility object carries the empty string as id. -/
def chatBodyEmptyId : ChatBody :=
  { location := "Denver, CO",
    date := "2025-12-09",
    objects := [{ id := "", name := "Jupiter", type := ObjType.planet,
                  visibility := Vis.good, riseTime := "2025-12-09T19:03:00Z",
                  setTime := "2025-12-10T06:15:00Z", note := "Bright." }],
    messages := [{ role := "user", content := "What should I look at?" }] }

/-- C8 counterexample: a validated request with a successful model call
whose first (and only) good-visibility object has id "" — the claim
requires meta.suggestedObjectId to equal that id, but the code's
truthiness test on the id omits meta entirely. -/
theorem claim_C8_counterexample :
    validateRequest chatBodyEmptyId = true ∧
    (chatBodyEmptyId.objects.find? (fun obj => obj.visibility = Vis.good)).isSome ∧
    POST (some chatBodyEmptyId) (Except.ok "hello") =
      ChatResponse.success 200 { reply := "hello", meta := none } := by
  refine ⟨by decide, by decide, by decide⟩

/-- C8 (amended): for every validated chat request with a successful model
call the handler returns 200 with the reply, and the meta field is
present exactly when some object has good visibility and the first such
object (in request order) has a non-empty id, in which case
meta.suggestedObjectId is that object's id; meta is omitted when no
object has good visibility, and — the one further case the id truthiness
test introduces — when the first good object's id is the empty string. -/
theorem claim_C8_suggested_object (b : ChatBody) (reply : String)
    (hv : validateRequest b = true) :
    ∃ meta,
      POST (some b) (Except.ok reply) =
        ChatResponse.success 200 { reply := reply, meta := meta } ∧
      (∀ sid, meta = some sid →
        ∃ obj, b.objects.find? (fun o => o.visibility = Vis.good) = some obj ∧
          sid = obj.id) ∧
      (∀ obj, b.objects.find? (fun o => o.visibility = Vis.good) = some obj →
        obj.id ≠ "" → meta = some obj.id) ∧
      (∀ obj, b.objects.find? (fun o => o.visibility = Vis.good) = some obj →
        obj.id = "" → meta = none) ∧
      ((∀ obj ∈ b.objects, obj.visibility ≠ Vis.good) → meta = none) := by
  simp only [POST, hv, Bool.not_true, Bool.false_eq_true, if_false]
  unfold findSuggestedObjectId
  cases hfind : b.objects.find? (fun o => o.visibility = Vis.good) with
  | none =>
    refine ⟨none, rfl, ?_, ?_, ?_, ?_⟩
    · intro sid h
      exact absurd h (by simp)
    · intro obj hobj
      exact absurd hobj (by simp)
    · intro obj hobj
      exact absurd hobj (by simp)
    · intro _
      rfl
  | some obj =>
    by_cases hid : obj.id = ""
    · refine ⟨none, ?_, ?_, ?_, ?_, ?_⟩
      · simp only [Option.map_some', hid, ne_eq, not_true_eq_false, if_false]
      · intro sid h
        exact absurd h (by simp)
      · intro obj' hobj hne
        injection hobj with hobj
        subst hobj
        exact absurd hid hne
      · intro obj' hobj _
        rfl
      · intro _
        rfl
    · refine ⟨some obj.id, ?_, ?_, ?_, ?_, ?_⟩
      · simp only [Option.map_some', hid, ne_eq, not_false_eq_true, if_true]
      · intro sid h
        refine ⟨obj, rfl, ?_⟩
        injection h with h
        exact h.symm
      · intro obj' hobj _
        injection hobj with hobj
        subst hobj
        rfl
      · intro obj' hobj hemp
        injection hobj with hobj
        subst hobj
        exact absurd hemp hid
      · intro hno
        have := List.find?_some hfind
        have hmem := List.mem_of_find?_eq_some hfind
        simp only [decide_eq_true_eq] at this
        exact absurd this (hno obj hmem)

/-- The C8 witness request: the first good-visibility object is sirius
(jupiter has only ok visibility). -/
def chatBodyGood : ChatBody :=
  { location := "Denver, CO",
    date := "2025-12-09",
    objects := [{ id := "jupiter", name := "Jupiter", type := ObjType.planet,
                  visibility := Vis.ok, riseTime := "2025-12-09T19:03:00Z",
                  setTime := "2025-12-10T06:15:00Z", note := "Low." },
                { id := "sirius", name := "Sirius", type := ObjType.star,
                  visibility := Vis.good, riseTime := "2025-12-09T18:30:00Z",
                  setTime := "2025-12-10T05:45:00Z", note := "Bright." }],
    messages := [{ role := "user", content := "What should I look at?" }] }

theorem claim_C8_witness :
    validateRequest chatBodyGood = true ∧
    ∃ meta,
      POST (some chatBodyGood) (Except.ok "Try Sirius!") =
        ChatResponse.success 200 { reply := "Try Sirius!", meta := meta } ∧
      (∀ sid, meta = some sid →
        ∃ obj, chatBodyGood.objects.find? (fun o => o.visibility = Vis.good) = some obj ∧
          sid = obj.id) ∧
      (∀ obj, chatBodyGood.objects.find? (fun o => o.visibility = Vis.good) = some obj →
        obj.id ≠ "" → meta = some obj.id) ∧
      (∀ obj, chatBodyGood.objects.find? (fun o => o.visibility = Vis.good) = some obj →
        obj.id = "" → meta = none) ∧
      ((∀ obj ∈ chatBodyGood.objects, obj.visibility ≠ Vis.good) → meta = none) :=
  ⟨by decide, claim_C8_suggested_object chatBodyGood "Try Sirius!" (by decide)⟩

/-! ## Structural lemmas on the celnav mapping -/

theorem mapCelnav_cons (date time : String) (item : CelnavItem)
    (items : List CelnavItem) :
    mapCelnavObjectsToSkyObjects ⟨some (item :: items)⟩ date time =
      match mapCelnavItem date time item,
            mapCelnavObjectsToSkyObjects ⟨some items⟩ date time with
      | none, _ => none
      | _, none => none
      | some none, some rest => some rest
      | some (some o), some rest => some (o :: rest) := rfl

theorem mapCelnav_mem (date time : String) (items : List CelnavItem)
    (objs : List SkyObject)
    (h : mapCelnavObjectsToSkyObjects ⟨some items⟩ date time = some objs) :
    ∀ o ∈ objs, ∃ item ∈ items, mapCelnavItem date time item = some (some o) := by
  induction items generalizing objs with
  | nil =>
    rw [show mapCelnavObjectsToSkyObjects ⟨some []⟩ date time = some [] from rfl] at h
    injection h with h
    subst h
    intro o ho
    exact absurd ho (List.not_mem_nil o)
  | cons item rest ih =>
    rw [mapCelnav_cons] at h
    cases hi : mapCelnavItem date time item with
    | none =>
      rw [hi] at h
      exact absurd h (by simp)
    | some oo =>
      cases hr : mapCelnavObjectsToSkyObjects ⟨some rest⟩ date time with
      | none =>
        rw [hi, hr] at h
        cases oo <;> exact absurd h (by simp)
      | some restObjs =>
        rw [hi, hr] at h
        cases oo with
        | none =>
          injection h with h
          subst h
          intro o ho
          obtain ⟨it, hmem, hit⟩ := ih restObjs hr o ho
          exact ⟨it, List.mem_cons_of_mem _ hmem, hit⟩
        | some o' =>
          injection h with h
          subst h
          intro o ho
          rcases List.mem_cons.mp ho with rfl | ho'
          · exact ⟨item, List.mem_cons_self _ _, hi⟩
          · obtain ⟨it, hmem, hit⟩ := ih restObjs hr o ho'
            exact ⟨it, List.mem_cons_of_mem _ hmem, hit⟩

theorem mapCelnavItem_total (y m d a b : Nat) (hv : validDate y m d)
    (hy : y < 10000) (ha : a < 24) (hb : b < 60) (item : CelnavItem) :
    mapCelnavItem (renderDate (y, m, d)) (hhmmStr a b) item ≠ none := by
  unfold mapCelnavItem
  split
  · rename_i heq
    rw [estimateRiseSetTimes_eval y m d a b item.almanac_data.hc hv hy ha hb] at heq
    exact absurd heq (by simp)
  · dsimp only
    split_ifs <;> simp

theorem mapCelnav_total (cd : CelnavResponse) (y m d a b : Nat)
    (hv : validDate y m d) (hy : y < 10000) (ha : a < 24) (hb : b < 60) :
    ∃ objs0, mapCelnavObjectsToSkyObjects cd (renderDate (y, m, d)) (hhmmStr a b) =
      some objs0 := by
  obtain ⟨cdata⟩ := cd
  cases cdata with
  | none => exact ⟨[], rfl⟩
  | some items =>
    induction items with
    | nil => exact ⟨[], rfl⟩
    | cons item rest ih =>
      obtain ⟨objs0, hrest⟩ := ih
      rw [mapCelnav_cons, hrest]
      cases hi : mapCelnavItem (renderDate (y, m, d)) (hhmmStr a b) item with
      | none => exact absurd hi (mapCelnavItem_total y m d a b hv hy ha hb item)
      | some oo =>
        cases oo with
        | none => exact ⟨objs0, rfl⟩
        | some o => exact ⟨o :: objs0, rfl⟩

theorem getObjectType_ne_constellation (name : String) (nav : Option ℚ) :
    getObjectType name nav ≠ ObjType.constellation := by
  unfold getObjectType
  dsimp only
  split_ifs <;> simp

theorem mapCelnavItem_fields (date time : String) (item : CelnavItem)
    (o : SkyObject) (h : mapCelnavItem date time item = some (some o)) :
    o.type ≠ ObjType.constellation ∧
    jsToLower o.name ≠ "sun" ∧ jsToLower o.name ≠ "moon" ∧
    (o.type = ObjType.planet → planetNames.contains (jsToLower o.name) = true) ∧
    (o.type = ObjType.star → item.nav_star_number.isSome = true) := by
  unfold mapCelnavItem at h
  split at h
  · dsimp only at h
    split_ifs at h <;> simp_all
  · dsimp only at h
    by_cases hskip : (item.object = "" ∨ jsToLower item.object = "sun" ∨
        jsToLower item.object = "moon")
    · rw [if_pos hskip] at h
      exact absurd h (by simp)
    · rw [if_neg hskip] at h
      push_neg at hskip
      by_cases hknown :
          (!KNOWN_OBJECTS.any fun known =>
            decide (jsToLower known = jsToLower (jsTrim item.object))) = true
      · rw [if_pos hknown] at h
        exact absurd h (by simp)
      · rw [if_neg hknown] at h
        injection h with h
        injection h with h
        subst h
        refine ⟨getObjectType_ne_constellation _ _, hskip.2.1, hskip.2.2, ?_, ?_⟩
        · intro hp
          have hp2 : getObjectType item.object item.nav_star_number = ObjType.planet := hp
          unfold getObjectType at hp2
          dsimp only at hp2
          by_cases hc : planetNames.contains (jsToLower item.object) = true
          · exact hc
          · rw [if_neg hc] at hp2
            split at hp2 <;> simp_all
        · intro hstar
          have hs2 : getObjectType item.object item.nav_star_number = ObjType.star := hstar
          unfold getObjectType at hs2
          dsimp only at hs2
          by_cases hc : planetNames.contains (jsToLower item.object) = true
          · rw [if_pos hc] at hs2
            exact absurd hs2 (by simp)
          · rw [if_neg hc] at hs2
            split at hs2
            · rename_i hnav
              exact hnav
            · exact absurd hs2 (by simp)

theorem sunObjects_fields (data : USNOResponse) (fd : List Char) (now : Nat)
    (t : FetchOutcome USNOResponse) (objs : List SkyObject)
    (h : sunObjects data fd now t = some objs) :
    ∀ o ∈ objs, o.id = "sun" ∧ o.name = "Sun" ∧ o.type = ObjType.star := by
  unfold sunObjects at h
  split at h
  · dsimp only at h
    split at h
    · exact absurd h (by simp)
    · injection h with h
      subst h
      intro o ho
      rcases List.mem_singleton.mp ho with rfl
      exact ⟨rfl, rfl, rfl⟩
  · injection h with h
    subst h
    intro o ho
    exact absurd ho (List.not_mem_nil o)

theorem moonObjects_fields (data : USNOResponse) (fd : List Char) (now : Nat)
    (objs : List SkyObject) (h : moonObjects data fd now = some objs) :
    ∀ o ∈ objs, o.id = "moon" ∧ o.name = "Moon" ∧ o.type = ObjType.other := by
  unfold moonObjects at h
  split at h
  · injection h with h
    subst h
    intro o ho
    exact absurd ho (List.not_mem_nil o)
  · split at h
    · dsimp only at h
      split at h
      · split at h
        · exact absurd h (by simp)
        · injection h with h
          subst h
          intro o ho
          rcases List.mem_singleton.mp ho with rfl
          exact ⟨rfl, rfl, rfl⟩
      · injection h with h
        subst h
        intro o ho
        rcases List.mem_singleton.mp ho with rfl
        exact ⟨rfl, rfl, rfl⟩
    · injection h with h
      subst h
      intro o ho
      exact absurd ho (List.not_mem_nil o)

/-- Decomposition of a successful adapter run into its three parts. -/
theorem mapAstronomy_decompose (data : USNOResponse) (date : String)
    (now : Nat) (c : FetchOutcome CelnavResponse)
    (t : FetchOutcome USNOResponse) (objs : List SkyObject)
    (h : mapAstronomyDataToSkyObjects data date now c t = some objs) :
    ∃ objs0 sunObjs moonObjs,
      objs = objs0 ++ sunObjs ++ moonObjs ∧
      (∀ o ∈ objs0, ∃ item,
        mapCelnavItem (String.mk ((splitOnChar 'T' date.data).headD []))
          (String.mk (pad2l (now / 3600000 % 24) ++ ':' :: pad2l (now / 60000 % 60)))
          item = some (some o)) ∧
      sunObjects data ((splitOnChar 'T' date.data).headD []) now t = some sunObjs ∧
      moonObjects data ((splitOnChar 'T' date.data).headD []) now = some moonObjs := by
  unfold mapAstronomyDataToSkyObjects at h
  dsimp only at h
  cases hc : fetchCelnavData data.lat data.lon
      (String.mk ((splitOnChar 'T' date.data).headD []))
      (String.mk (pad2l (now / 3600000 % 24) ++ ':' :: pad2l (now / 60000 % 60))) c with
  | none =>
    rw [hc] at h
    dsimp only at h
    split at h
    · exact absurd h (by simp)
    · rename_i sunObjs hsun
      split at h
      · exact absurd h (by simp)
      · rename_i moonObjs hmoon
        injection h with h
        exact ⟨[], sunObjs, moonObjs, h.symm,
          fun o ho => absurd ho (List.not_mem_nil o), hsun, hmoon⟩
  | some cd =>
    rw [hc] at h
    dsimp only at h
    cases hm : mapCelnavObjectsToSkyObjects cd
        (String.mk ((splitOnChar 'T' date.data).headD []))
        (String.mk (pad2l (now / 3600000 % 24) ++ ':' :: pad2l (now / 60000 % 60))) with
    | none =>
      rw [hm] at h
      exact absurd h (by simp)
    | some objs0 =>
      rw [hm] at h
      dsimp only at h
      split at h
      · exact absurd h (by simp)
      · rename_i sunObjs hsun
        split at h
        · exact absurd h (by simp)
        · rename_i moonObjs hmoon
          injection h with h
          refine ⟨objs0, sunObjs, moonObjs, h.symm, ?_, hsun, hmoon⟩
          obtain ⟨cdata⟩ := cd
          cases cdata with
          | none =>
            injection hm with hm
            subst hm
            exact fun o ho => absurd ho (List.not_mem_nil o)
          | some items =>
            intro o ho
            obtain ⟨item, _, hitem⟩ := mapCelnav_mem _ _ items objs0 hm o ho
            exact ⟨item, hitem⟩

/-- C10: the adapter never emits an object typed constellation.
getObjectType yields planet exactly for known-planet names, star only
when a nav_star_number is present, other otherwise — allow-listed
constellation names like "Orion" get other — and in any successful
adapter output no object is typed constellation, the Sun object (name
"Sun") has id "sun" and type star, and the Moon object (name "Moon")
has id "moon" and type other. -/
theorem claim_C10_object_types :
    (∀ name nav, getObjectType name nav ≠ ObjType.constellation ∧
      (getObjectType name nav = ObjType.planet ↔
        planetNames.contains (jsToLower name) = true) ∧
      (getObjectType name nav = ObjType.star → nav.isSome = true)) ∧
    getObjectType "Orion" none = ObjType.other ∧
    (∀ data date now c t objs,
      mapAstronomyDataToSkyObjects data date now c t = some objs →
      ∀ o ∈ objs,
        o.type ≠ ObjType.constellation ∧
        (o.name = "Sun" → o.id = "sun" ∧ o.type = ObjType.star) ∧
        (o.name = "Moon" → o.id = "moon" ∧ o.type = ObjType.other)) := by
  refine ⟨?_, by decide, ?_⟩
  · intro name nav
    refine ⟨getObjectType_ne_constellation name nav, ?_, ?_⟩
    · unfold getObjectType
      dsimp only
      by_cases hc : planetNames.contains (jsToLower name) = true
      · rw [if_pos hc]
        exact iff_of_true rfl hc
      · rw [if_neg hc]
        constructor
        · intro hp
          split at hp <;> exact absurd hp (by simp)
        · intro hcc
          exact absurd hcc hc
    · unfold getObjectType
      dsimp only
      by_cases hc : planetNames.contains (jsToLower name) = true
      · rw [if_pos hc]
        intro hp
        exact absurd hp (by simp)
      · rw [if_neg hc]
        intro hs
        split at hs
        · rename_i hnav
          exact hnav
        · exact absurd hs (by simp)
  · intro data date now c t objs h o ho
    obtain ⟨objs0, sunObjs, moonObjs, heq, hobjs0, hsun, hmoon⟩ :=
      mapAstronomy_decompose data date now c t objs h
    subst heq
    rcases List.mem_append.mp ho with ho | homoon
    · rcases List.mem_append.mp ho with hocel | hosun
      · obtain ⟨item, hitem⟩ := hobjs0 o hocel
        obtain ⟨hft, hnsun, hnmoon, _, _⟩ :=
          mapCelnavItem_fields _ _ item o hitem
        refine ⟨hft, ?_, ?_⟩
        · intro hname
          rw [hname] at hnsun
          exact absurd (by decide) hnsun
        · intro hname
          rw [hname] at hnmoon
          exact absurd (by decide) hnmoon
      · obtain ⟨hid, hname, htype⟩ := sunObjects_fields data _ now t sunObjs hsun o hosun
        refine ⟨by rw [htype]; decide, fun _ => ⟨hid, htype⟩, ?_⟩
        · intro hmn
          rw [hname] at hmn
          exact absurd hmn (by decide)
    · obtain ⟨hid, hname, htype⟩ := moonObjects_fields data _ now moonObjs hmoon o homoon
      refine ⟨by rw [htype]; decide, ?_, fun _ => ⟨hid, htype⟩⟩
      · intro hmn
        rw [hname] at hmn
        exact absurd hmn (by decide)

/-- A small concrete USNO payload: sun rise/set and moon rise/set events. -/
def usnoSample : USNOResponse :=
  ⟨-104, 39, ⟨[⟨"Rise", "07:00"⟩, ⟨"Set", "16:00"⟩],
    some [⟨"Rise", "08:00"⟩, ⟨"Set", "18:00"⟩], some "Waxing Gibbous", some "83%"⟩⟩

theorem claim_C10_witness :
    mapAstronomyDataToSkyObjects usnoSample "2025-12-09" 0
        FetchOutcome.thrown FetchOutcome.thrown =
      some ((mapAstronomyDataToSkyObjects usnoSample "2025-12-09" 0
        FetchOutcome.thrown FetchOutcome.thrown).getD []) ∧
    ∀ o ∈ (mapAstronomyDataToSkyObjects usnoSample "2025-12-09" 0
        FetchOutcome.thrown FetchOutcome.thrown).getD [],
      o.type ≠ ObjType.constellation ∧
      (o.name = "Sun" → o.id = "sun" ∧ o.type = ObjType.star) ∧
      (o.name = "Moon" → o.id = "moon" ∧ o.type = ObjType.other) :=
  ⟨by decide,
    claim_C10_object_types.2.2 usnoSample "2025-12-09" 0 FetchOutcome.thrown
      FetchOutcome.thrown _ (by decide)⟩

theorem fetchCelnav_thrown (lat lon : ℚ) (date time : String) :
    fetchCelnavData lat lon date time FetchOutcome.thrown = none := by
  unfold fetchCelnavData
  dsimp only
  split_ifs <;> rfl

/-- C6: fetchCelnavData never escapes with an exception — a malformed
date, a malformed time, a thrown fetch and a non-2xx status all return
null — and when the celnav fetch yields null,
mapAstronomyDataToSkyObjects behaves exactly as with a thrown celnav
fetch: its output is just the Sun/Moon part, every emitted object being
the Sun or the Moon, which are still emitted as usual. -/
theorem claim_C6_celnav_degradation :
    (∀ lat lon date time outcome,
      dateRegexTest ((splitOnChar 'T' date.data).headD []) = false →
      fetchCelnavData lat lon date time outcome = none) ∧
    (∀ lat lon date time outcome,
      timeRegexTest (if timeStartTest time.data then time.data.take 5
        else time.data) = false →
      fetchCelnavData lat lon date time outcome = none) ∧
    (∀ lat lon date time,
      fetchCelnavData lat lon date time FetchOutcome.thrown = none ∧
      fetchCelnavData lat lon date time FetchOutcome.notOk = none) ∧
    (∀ data date now t outcome,
      fetchCelnavData data.lat data.lon
          (String.mk ((splitOnChar 'T' date.data).headD []))
          (String.mk (pad2l (now / 3600000 % 24) ++ ':' :: pad2l (now / 60000 % 60)))
          outcome = none →
      mapAstronomyDataToSkyObjects data date now outcome t =
        mapAstronomyDataToSkyObjects data date now FetchOutcome.thrown t ∧
      (∀ objs,
        mapAstronomyDataToSkyObjects data date now outcome t = some objs →
        ∃ sunObjs moonObjs,
          sunObjects data ((splitOnChar 'T' date.data).headD []) now t = some sunObjs ∧
          moonObjects data ((splitOnChar 'T' date.data).headD []) now = some moonObjs ∧
          objs = sunObjs ++ moonObjs ∧
          (∀ o ∈ objs, o.id = "sun" ∨ o.id = "moon"))) := by
  refine ⟨?_, ?_, ?_, ?_⟩
  · intro lat lon date time outcome hbad
    unfold fetchCelnavData
    dsimp only
    rw [hbad]
    rfl
  · intro lat lon date time outcome hbad
    unfold fetchCelnavData
    dsimp only
    by_cases hd : dateRegexTest ((splitOnChar 'T' date.data).headD []) = true
    · rw [hd, hbad]
      rfl
    · rw [Bool.not_eq_true] at hd
      rw [hd]
      rfl
  · intro lat lon date time
    constructor
    · exact fetchCelnav_thrown lat lon date time
    · unfold fetchCelnavData
      dsimp only
      split_ifs <;> rfl
  · intro data date now t outcome hfetch
    constructor
    · unfold mapAstronomyDataToSkyObjects
      dsimp only
      rw [hfetch, fetchCelnav_thrown]
    · intro objs h
      unfold mapAstronomyDataToSkyObjects at h
      dsimp only at h
      rw [hfetch] at h
      dsimp only at h
      split at h
      · exact absurd h (by simp)
      · rename_i sunObjs hsun
        split at h
        · exact absurd h (by simp)
        · rename_i moonObjs hmoon
          injection h with h
          refine ⟨sunObjs, moonObjs, hsun, hmoon, by simpa using h.symm, ?_⟩
          intro o ho
          rw [← h] at ho
          rcases List.mem_append.mp (by simpa using ho) with hs | hm
          · exact Or.inl (sunObjects_fields data _ now t sunObjs hsun o hs).1
          · exact Or.inr (moonObjects_fields data _ now moonObjs hmoon o hm).1

theorem sunObjects_total (data : USNOResponse) (y m d : Nat)
    (hv : validDate y m d) (hy : y < 10000) (now : Nat)
    (t : FetchOutcome USNOResponse) :
    ∃ objs, sunObjects data (renderDateL (y, m, d)) now t = some objs := by
  unfold sunObjects
  split
  · dsimp only
    rw [parseDateL_renderDateL y m d hv hy]
    exact ⟨_, rfl⟩
  · exact ⟨[], rfl⟩

/-- Evaluation of the Moon block on a payload whose moondata has a Rise
event with clock time rh:rm and a Set event with clock time sh:sm. -/
theorem moonObjects_eval (data : USNOResponse) (y m d rh rm sh sm now : Nat)
    (md : List UEvent) (riseEv setEv : UEvent)
    (hv : validDate y m d) (hy : y < 10000)
    (hrh : rh < 24) (hrm : rm < 60) (hsh : sh < 24) (hsm : sm < 60)
    (hmoon : data.data.moondata = some md)
    (hfr : md.find? (fun e => e.phen = "Rise") = some riseEv)
    (hfs : md.find? (fun e => e.phen = "Set") = some setEv)
    (hrt : riseEv.time = hhmmStr rh rm)
    (hst : setEv.time = hhmmStr sh sm) :
    moonObjects data (renderDateL (y, m, d)) now =
      some [moonObject data (timeToISO (renderDate (y, m, d)) (hhmmStr rh rm))
        (timeToISO
          (renderDate (if sh < rh ∨ (sh = rh ∧ sm < rm) then nextDay (y, m, d)
            else (y, m, d)))
          (hhmmStr sh sm)) now] := by
  unfold moonObjects
  rw [hmoon]
  dsimp only
  rw [hfr, hfs]
  dsimp only
  rw [hrt, hst]
  have hbridge : jsStrLt (hhmmStr sh sm) (hhmmStr rh rm) =
      decide (sh < rh ∨ (sh = rh ∧ sm < rm)) := by
    show jsLtL (hhmmL sh sm) (hhmmL rh rm) = _
    exact jsLtL_hhmm sh sm rh rm (by omega) (by omega) (by omega) (by omega)
  rw [hbridge]
  by_cases hcond : (sh < rh ∨ (sh = rh ∧ sm < rm))
  · rw [if_pos (by simp [hcond]), if_pos hcond,
      parseDateL_renderDateL y m d hv hy]
    rfl
  · rw [if_neg (by simp [hcond]), if_neg hcond]
    rfl

/-- C3: for every USNO payload whose moondata carries a Rise event with
clock time rh:rm and a Set event with clock time sh:sm, the emitted Moon
object's setTime is dated one calendar day after the riseTime's date
exactly when (sh, sm) is numerically earlier than (rh, rm), and otherwise
both carry the request date; and in the concrete scenario rise 08:00,
set 02:00 with the clock at 10:00 on the request date, the Moon's
visibility is good. -/
theorem claim_C3_moonset_rollover :
    (∀ (data : USNOResponse) (y m d rh rm sh sm now : Nat)
      (c : FetchOutcome CelnavResponse) (t : FetchOutcome USNOResponse)
      (md : List UEvent) (riseEv setEv : UEvent),
      validDate y m d → y < 10000 →
      rh < 24 → rm < 60 → sh < 24 → sm < 60 →
      data.data.moondata = some md →
      md.find? (fun e => e.phen = "Rise") = some riseEv →
      md.find? (fun e => e.phen = "Set") = some setEv →
      riseEv.time = hhmmStr rh rm →
      setEv.time = hhmmStr sh sm →
      ∃ objsPre moonObj,
        mapAstronomyDataToSkyObjects data (renderDate (y, m, d)) now c t =
          some (objsPre ++ [moonObj]) ∧
        moonObj.id = "moon" ∧
        moonObj.riseTime = timeToISO (renderDate (y, m, d)) (hhmmStr rh rm) ∧
        moonObj.setTime =
          timeToISO
            (renderDate (if sh < rh ∨ (sh = rh ∧ sm < rm) then nextDay (y, m, d)
              else (y, m, d)))
            (hhmmStr sh sm)) ∧
    (∃ objsPre moonObj,
      mapAstronomyDataToSkyObjects
          ⟨-104, 39, ⟨[], some [⟨"Rise", "08:00"⟩, ⟨"Set", "02:00"⟩], none, none⟩⟩
          "2025-12-09" (toInstant 2025 12 9 10 0)
          FetchOutcome.thrown FetchOutcome.thrown =
        some (objsPre ++ [moonObj]) ∧
      moonObj.id = "moon" ∧
      moonObj.riseTime = "2025-12-09T08:00:00.000Z" ∧
      moonObj.setTime = "2025-12-10T02:00:00.000Z" ∧
      moonObj.visibility = Vis.good) := by
  constructor
  · intro data y m d rh rm sh sm now c t md riseEv setEv hv hy hrh hrm hsh hsm
      hmoon hfr hfs hrt hst
    unfold mapAstronomyDataToSkyObjects
    dsimp only
    have hfd : (splitOnChar 'T' (renderDate (y, m, d)).data).headD [] =
        renderDateL (y, m, d) := by
      rw [show (renderDate (y, m, d)).data = renderDateL (y, m, d) from rfl,
        splitOnChar_of_not_mem _ _ (T_not_mem_renderDateL (y, m, d)),
        List.headD_cons]
    rw [hfd,
      show String.mk (renderDateL (y, m, d)) = renderDate (y, m, d) from rfl,
      show String.mk (pad2l (now / 3600000 % 24) ++ ':' ::
          pad2l (now / 60000 % 60)) =
        hhmmStr (now / 3600000 % 24) (now / 60000 % 60) from rfl]
    have ha : now / 3600000 % 24 < 24 := Nat.mod_lt _ (by omega)
    have hb : now / 60000 % 60 < 60 := Nat.mod_lt _ (by omega)
    obtain ⟨sunObjs, hsun⟩ := sunObjects_total data y m d hv hy now t
    have hme := moonObjects_eval data y m d rh rm sh sm now md riseEv setEv
      hv hy hrh hrm hsh hsm hmoon hfr hfs hrt hst
    cases hfc : fetchCelnavData data.lat data.lon (renderDate (y, m, d))
        (hhmmStr (now / 3600000 % 24) (now / 60000 % 60)) c with
    | none =>
      dsimp only
      rw [hsun]
      dsimp only
      rw [hme]
      exact ⟨[] ++ sunObjs, _, rfl, rfl, rfl, rfl⟩
    | some cd =>
      dsimp only
      obtain ⟨objs0, hcel⟩ := mapCelnav_total cd y m d
        (now / 3600000 % 24) (now / 60000 % 60) hv hy ha hb
      rw [hcel]
      dsimp only
      rw [hsun]
      dsimp only
      rw [hme]
      exact ⟨objs0 ++ sunObjs, _, rfl, rfl, rfl, rfl⟩
  · exact ⟨[], _, rfl, rfl, rfl, rfl, rfl⟩

/-- A concrete payload with only moon events (rise 08:00, set 02:00). -/
def moonSample : USNOResponse :=
  ⟨-104, 39, ⟨[], some [⟨"Rise", "08:00"⟩, ⟨"Set", "02:00"⟩], none, none⟩⟩

theorem claim_C3_witness :
    validDate 2025 12 9 ∧
    ∃ objsPre moonObj,
      mapAstronomyDataToSkyObjects moonSample (renderDate (2025, 12, 9)) 0
          FetchOutcome.thrown FetchOutcome.thrown =
        some (objsPre ++ [moonObj]) ∧
      moonObj.id = "moon" ∧
      moonObj.riseTime = timeToISO (renderDate (2025, 12, 9)) (hhmmStr 8 0) ∧
      moonObj.setTime =
        timeToISO (renderDate (if 2 < 8 ∨ (2 = 8 ∧ 0 < 0) then nextDay (2025, 12, 9)
          else (2025, 12, 9))) (hhmmStr 2 0) :=
  ⟨by decide,
    claim_C3_moonset_rollover.1 moonSample 2025 12 9 8 0 2 0 0
      FetchOutcome.thrown FetchOutcome.thrown
      [⟨"Rise", "08:00"⟩, ⟨"Set", "02:00"⟩] ⟨"Rise", "08:00"⟩ ⟨"Set", "02:00"⟩
      (by decide) (by decide) (by decide) (by decide) (by decide) (by decide)
      (by decide) (by decide) (by decide) (by decide) (by decide)⟩

theorem claim_C6_witness :
    (fetchCelnavData 39 (-104) "2025-12-09" "10:00" FetchOutcome.thrown = none ∧
     fetchCelnavData 39 (-104) "2025-12-09" "10:00" FetchOutcome.notOk = none) ∧
    mapAstronomyDataToSkyObjects usnoSample "2025-12-09" 0
        FetchOutcome.notOk FetchOutcome.thrown =
      mapAstronomyDataToSkyObjects usnoSample "2025-12-09" 0
        FetchOutcome.thrown FetchOutcome.thrown :=
  ⟨claim_C6_celnav_degradation.2.2.1 39 (-104) "2025-12-09" "10:00",
   (claim_C6_celnav_degradation.2.2.2 usnoSample "2025-12-09" 0
      FetchOutcome.thrown FetchOutcome.notOk (by decide)).1⟩
